import Mathlib

/-!
# Listener registry of `windows_serial.c`

A shallow embedding of the looper-thread registry of the Windows native layer of the
serial communication manager: the global table `handle_looper_info`, the index `dtp_index`,
and the four JNI entry points that attach and detach data / event listeners
(`setUpDataLooperThread`, `setUpEventLooperThread`, `destroyDataLooperThread`,
`destroyEventLooperThread`) together with their helper `setupLooperThread`.

Conventions of the embedding.

* A `HANDLE`, a `jobject` and every other pointer is the natural number of its bit pattern,
  `0` being `NULL`.  The cast `(HANDLE)handle` of the `jlong` argument keeps that bit pattern,
  so the entry points take the handle directly.
* A `DWORD` is a natural number; the only operations the code applies to masks are `|` and `&`.
* The table is `struct looper_thread_params handle_looper_info[MAX_NUM_THREADS]`.  It is
  embedded as a function from slot index to slot value.  Indices below `MAX_NUM_THREADS` are
  the array itself; an index at or above it stands for the memory that follows the array
  (in units of one struct), which is what `handle_looper_info[dtp_index]` and a pointer that
  was incremented `MAX_NUM_THREADS` times address.  An access through such an index is out of
  bounds in C: the embedding shows that it is made and at which index, not what else a store
  there overwrites.  The embedding of `setupLooperThread` is therefore the code's behaviour
  only while `dtp_index < MAX_NUM_THREADS`, and the statements about sequences of calls assume
  that bound for every attach.
* `dtp_index` is only ever initialised to `0` and incremented, so it is a natural number.
* Operating-system and JVM calls are not part of the repository.  Their results for one
  native call are supplied by an `OSResults` record; every call made is appended to the
  `calls` log of the state, and `SetCommMask` / `GetCommMask` write / read the per-device
  mask `comm_mask`.
* Diagnostic output (`fprintf`, `fflush`, `GetLastError`) has no effect on the modelled state
  and is left out.
-/

namespace WindowsSerial

/-- A Windows `HANDLE` (pointer sized), `0` is `NULL`. -/
abbrev HANDLE := Nat

/-- A Windows `DWORD`. -/
abbrev DWORD := Nat

/-- A JNI object reference, `0` is `NULL`. -/
abbrev jobject := Nat

/-- The constant `#define MAX_NUM_THREADS 1024`. -/
def MAX_NUM_THREADS : Nat := 1024

/-- Windows SDK (`winbase.h`): a character was received. -/
def EV_RXCHAR : DWORD := 0x0001
/-- Windows SDK (`winbase.h`): the event character was received. -/
def EV_RXFLAG : DWORD := 0x0002
/-- Windows SDK (`winbase.h`): CTS changed state. -/
def EV_CTS : DWORD := 0x0008
/-- Windows SDK (`winbase.h`): DSR changed state. -/
def EV_DSR : DWORD := 0x0010
/-- Windows SDK (`winbase.h`): RLSD (carrier detect) changed state. -/
def EV_RLSD : DWORD := 0x0020
/-- Windows SDK (`winbase.h`): a break was detected. -/
def EV_BREAK : DWORD := 0x0040
/-- Windows SDK (`winbase.h`): a line-status error occurred. -/
def EV_ERR : DWORD := 0x0080
/-- Windows SDK (`winbase.h`): a ring indicator was detected. -/
def EV_RING : DWORD := 0x0100

/-- The fields of `struct looper_thread_params` that `windows_serial.c` reads or writes
(the struct itself is declared in `windows_serial_lib.h`).  The field `csmutex` is a pointer
that is either `NULL` or `&csmutex`; it is embedded as a flag. -/
structure looper_thread_params where
  jvm : Nat
  hComm : HANDLE
  looper : jobject
  data_enabled : Int
  event_enabled : Int
  thread_exit : Int
  csmutex : Bool
  wait_event_handles_0 : HANDLE
  wait_event_handles_1 : HANDLE
  thread_handle : HANDLE
  deriving DecidableEq, Repr

/-- One element of the zero-initialised table (`= { 0 }`). -/
def zero_params : looper_thread_params :=
  { jvm := 0, hComm := 0, looper := 0, data_enabled := 0, event_enabled := 0, thread_exit := 0,
    csmutex := false, wait_event_handles_0 := 0, wait_event_handles_1 := 0, thread_handle := 0 }

/-- The calls into the operating system, the C runtime and the JVM that the registry code
makes, with the arguments that matter. -/
inductive OSCall where
  | EnterCriticalSection
  | LeaveCriticalSection
  | NewGlobalRef (obj : jobject)
  | CreateEvent
  | beginthreadex (arg : Nat)
  | GetCommMask (hComm : HANDLE)
  | SetCommMask (hComm : HANDLE) (mask : DWORD)
  | ClearCommError (hComm : HANDLE)
  | SetEvent (hEvent : HANDLE)
  | FlushFileBuffers (hFile : HANDLE)
  | CloseHandle (hObject : HANDLE)
  deriving DecidableEq, Repr

/-- The global state the registry code works on. -/
structure State where
  /-- The global `JavaVM *jvm`. -/
  jvm : Nat
  /-- The global `int dtp_index`. -/
  dtp_index : Nat
  /-- The global table (and the memory behind it, see the module comment). -/
  handle_looper_info : Nat → looper_thread_params
  /-- The number of times the calling thread holds the critical section `csmutex`. -/
  csmutex_count : Nat
  /-- The communication event mask of every device, as `SetCommMask` sets it. -/
  comm_mask : HANDLE → DWORD
  /-- The external calls made so far, oldest first. -/
  calls : List OSCall

/-- The results of the external calls made during one native call.  For the three creating
calls the value is the returned reference or handle (`0` on failure); for the others it is
whether the call reported success.  The two `uninit_` fields are the indeterminate contents of
locals that the code reads without having initialised them. -/
structure OSResults where
  NewGlobalRef : jobject
  CreateEvent : HANDLE
  beginthreadex : HANDLE
  GetCommMask : Bool
  SetCommMask : Bool
  SetEvent : Bool
  uninit_event_mask : DWORD
  uninit_thread_handle : HANDLE

/-- Append a call to the log. -/
def State.log (s : State) (c : OSCall) : State :=
  { s with calls := s.calls ++ [c] }

/-- The lookup loop shared by the four entry points,
`for (x = 0; x < MAX_NUM_THREADS; x++) { if (ptr->hComm == hComm) { ...; break; } ptr++; }`,
started with `fuel` iterations left and `ptr = handle_looper_info + x`.  It returns the final
offset of `ptr` and whether the loop left through `break`. -/
def lookup_from (info : Nat → looper_thread_params) (hComm : HANDLE) : Nat → Nat → Nat × Bool
  | 0, x => (x, false)
  | fuel + 1, x =>
    if (info x).hComm = hComm then (x, true) else lookup_from info hComm fuel (x + 1)

/-- The whole lookup loop: `MAX_NUM_THREADS` iterations from `ptr = handle_looper_info`. -/
def lookup (info : Nat → looper_thread_params) (hComm : HANDLE) : Nat × Bool :=
  lookup_from info hComm MAX_NUM_THREADS 0

/-- The function `setupLooperThread`.  The function has no test of `dtp_index`: its store
`handle_looper_info[dtp_index] = params` lies inside the table exactly when
`dtp_index < MAX_NUM_THREADS`; beyond that it is an out-of-bounds store, embedded as a write to
the memory behind the table (see the module comment). -/
def setupLooperThread (os : OSResults) (handle : HANDLE) (looper_obj_ref : jobject)
    (data_enabled event_enabled : Int) (s : State) : Int × State :=
  let hComm := handle
  -- EnterCriticalSection(&csmutex);
  let s := { s with csmutex_count := s.csmutex_count + 1 }.log OSCall.EnterCriticalSection
  -- jobject looper_ref = (*env)->NewGlobalRef(env, looper_obj_ref);
  let looper_ref := os.NewGlobalRef
  let s := s.log (OSCall.NewGlobalRef looper_obj_ref)
  if looper_ref = 0 then (-240, s) else
  -- params.wait_event_handles[0] = CreateEvent(NULL, FALSE, FALSE, NULL);
  let params : looper_thread_params :=
    { jvm := s.jvm, hComm := hComm, looper := looper_ref, data_enabled := data_enabled,
      event_enabled := event_enabled, thread_exit := 0, csmutex := true,
      wait_event_handles_0 := os.CreateEvent,
      wait_event_handles_1 := 0,
      thread_handle := os.uninit_thread_handle }
  let s := s.log OSCall.CreateEvent
  if params.wait_event_handles_0 = 0 then (-240, s) else
  -- handle_looper_info[dtp_index] = params; void *arg = &handle_looper_info[dtp_index];
  let arg := s.dtp_index
  let s := { s with handle_looper_info := Function.update s.handle_looper_info arg params }
  -- thread_handle = (HANDLE) _beginthreadex(NULL, 0, &event_data_looper, arg, 0, &thread_id);
  let thread_handle := os.beginthreadex
  let s := s.log (OSCall.beginthreadex arg)
  if thread_handle = 0 then (-240, s) else
  -- ((struct looper_thread_params*) arg)->thread_handle = thread_handle;
  let slot := { (s.handle_looper_info arg) with thread_handle := thread_handle }
  let s := { s with handle_looper_info := Function.update s.handle_looper_info arg slot }
  -- dtp_index++;
  let s := { s with dtp_index := s.dtp_index + 1 }
  -- LeaveCriticalSection(&csmutex);
  let s := { s with csmutex_count := s.csmutex_count - 1 }.log OSCall.LeaveCriticalSection
  (0, s)

/-- The function `Java_com_embeddedunveiled_serial_SerialComJNINativeInterface_setUpDataLooperThread`. -/
def setUpDataLooperThread (os : OSResults) (handle : HANDLE) (looper : jobject) (s : State) :
    Int × State :=
  let hComm := handle
  -- for (x = 0; x < MAX_NUM_THREADS; x++) { if(ptr->hComm == hComm) { thread_exist = 1; break; } ptr++; }
  let thread_exist := (lookup s.handle_looper_info hComm).2
  if thread_exist then
    -- ret = GetCommMask(hComm, &event_mask);   (event_mask is not initialised, ret is not read)
    let event_mask := if os.GetCommMask then s.comm_mask hComm else os.uninit_event_mask
    let s := s.log (OSCall.GetCommMask hComm)
    -- updated_mask = event_mask | EV_RXCHAR;
    let updated_mask := event_mask ||| EV_RXCHAR
    -- ret = SetCommMask(hComm, updated_mask);
    let s := s.log (OSCall.SetCommMask hComm updated_mask)
    if os.SetCommMask = false then
      -- ClearCommError(hComm, &error_type, &com_stat); return -240;
      (-240, s.log (OSCall.ClearCommError hComm))
    else
      let s := { s with comm_mask := Function.update s.comm_mask hComm updated_mask }
      -- control leaves the if statement and reaches the final return
      (-1, s)
  else
    -- return setupLooperThread(env, obj, handle, looper, 1, 0);
    setupLooperThread os handle looper 1 0 s

/-- The function `Java_com_embeddedunveiled_serial_SerialComJNINativeInterface_setUpEventLooperThread`. -/
def setUpEventLooperThread (os : OSResults) (handle : HANDLE) (looper : jobject) (s : State) :
    Int × State :=
  let hComm := handle
  -- for(x = 0; x < MAX_NUM_THREADS; x++) { if(ptr->hComm == hComm) { thread_exist = 1; break; } ptr++; }
  let thread_exist := (lookup s.handle_looper_info hComm).2
  if thread_exist then
    -- ret = GetCommMask(hComm, &event_mask);   (event_mask is not initialised, ret is not read)
    let event_mask := if os.GetCommMask then s.comm_mask hComm else os.uninit_event_mask
    let s := s.log (OSCall.GetCommMask hComm)
    -- updated_mask = event_mask | EV_BREAK | EV_CTS | EV_DSR | EV_ERR | EV_RING | EV_RLSD | EV_RXFLAG;
    let updated_mask :=
      event_mask ||| EV_BREAK ||| EV_CTS ||| EV_DSR ||| EV_ERR ||| EV_RING ||| EV_RLSD ||| EV_RXFLAG
    -- ret = SetCommMask(hComm, updated_mask);
    let s := s.log (OSCall.SetCommMask hComm updated_mask)
    if os.SetCommMask = false then
      -- ClearCommError(hComm, &error_type, &com_stat); return -240;
      (-240, s.log (OSCall.ClearCommError hComm))
    else
      let s := { s with comm_mask := Function.update s.comm_mask hComm updated_mask }
      -- control leaves the if statement and reaches the final return
      (-1, s)
  else
    -- return setupLooperThread(env, obj, handle, looper, 0, 1);
    setupLooperThread os handle looper 0 1 s

/-- The function `Java_com_embeddedunveiled_serial_SerialComJNINativeInterface_destroyDataLooperThread`. -/
def destroyDataLooperThread (os : OSResults) (handle : HANDLE) (s : State) : Int × State :=
  -- DWORD a = 0; DWORD b = a & EV_CTS;
  let a : DWORD := 0
  let b : DWORD := a &&& EV_CTS
  let hComm := handle
  -- DWORD event_mask = 0; ret = GetCommMask(hComm, &event_mask);
  let event_mask : DWORD := if os.GetCommMask then s.comm_mask hComm else 0
  let s := s.log (OSCall.GetCommMask hComm)
  if os.GetCommMask = false then
    -- ClearCommError(hComm, &error_type, &com_stat); return 0;
    (0, s.log (OSCall.ClearCommError hComm))
  else
  if (b &&& event_mask) = 1 then
    -- event_mask = 0; event_mask = event_mask | EV_BREAK | ... | EV_RXFLAG;
    let event_mask : DWORD := 0
    let event_mask :=
      event_mask ||| EV_BREAK ||| EV_CTS ||| EV_DSR ||| EV_ERR ||| EV_RING ||| EV_RLSD ||| EV_RXFLAG
    -- ret = SetCommMask(hComm, event_mask);
    let s := s.log (OSCall.SetCommMask hComm event_mask)
    if os.SetCommMask = false then
      -- ClearCommError(hComm, &error_type, &com_stat); return -240;
      (-240, s.log (OSCall.ClearCommError hComm))
    else
      let s := { s with comm_mask := Function.update s.comm_mask hComm event_mask }
      -- ptr still is handle_looper_info; ret = SetEvent(ptr->wait_event_handles[0]); return 0;
      (0, s.log (OSCall.SetEvent (s.handle_looper_info 0).wait_event_handles_0))
  else
    -- for (...) { if(ptr->hComm == hComm) { ptr->thread_exit = 1; break; } ptr++; }
    let found := lookup s.handle_looper_info hComm
    let ptr := found.1
    let slot := { (s.handle_looper_info ptr) with thread_exit := 1 }
    let s :=
      if found.2 then
        { s with handle_looper_info := Function.update s.handle_looper_info ptr slot }
      else s
    -- ret = SetEvent(ptr->wait_event_handles[0]); return 0;
    (0, s.log (OSCall.SetEvent (s.handle_looper_info ptr).wait_event_handles_0))

/-- The function `Java_com_embeddedunveiled_serial_SerialComJNINativeInterface_destroyEventLooperThread`. -/
def destroyEventLooperThread (os : OSResults) (handle : HANDLE) (s : State) : Int × State :=
  -- DWORD a = 0; DWORD b = a & EV_RXCHAR;
  let a : DWORD := 0
  let b : DWORD := a &&& EV_RXCHAR
  let hComm := handle
  -- DWORD event_mask = 0; ret = GetCommMask(hComm, &event_mask);   (ret is not read)
  let event_mask : DWORD := if os.GetCommMask then s.comm_mask hComm else 0
  let s := s.log (OSCall.GetCommMask hComm)
  if (b &&& event_mask) = 1 then
    -- event_mask = 0; event_mask = event_mask | EV_RXCHAR;
    let event_mask : DWORD := 0
    let event_mask := event_mask ||| EV_RXCHAR
    -- ret = SetCommMask(hComm, event_mask);
    let s := s.log (OSCall.SetCommMask hComm event_mask)
    if os.SetCommMask = false then
      -- ClearCommError(hComm, &error_type, &com_stat); return -240;
      (-240, s.log (OSCall.ClearCommError hComm))
    else
      let s := { s with comm_mask := Function.update s.comm_mask hComm event_mask }
      (0, s)
  else
    -- for (...) { if(ptr->hComm == hComm) { ptr->thread_exit = 1; break; } ptr++; }
    let found := lookup s.handle_looper_info hComm
    let ptr := found.1
    let slot := { (s.handle_looper_info ptr) with thread_exit := 1 }
    let s :=
      if found.2 then
        { s with handle_looper_info := Function.update s.handle_looper_info ptr slot }
      else s
    -- ret = SetEvent(ptr->wait_event_handles[0]);
    let s := s.log (OSCall.SetEvent (s.handle_looper_info ptr).wait_event_handles_0)
    (0, s)

/-- The registry as the program starts with it: `dtp_index = 0`, the zero-initialised table,
no call made yet.  The device masks and the memory behind the table are whatever they are. -/
def IsInitial (s : State) : Prop :=
  s.dtp_index = 0 ∧ (∀ i, i < MAX_NUM_THREADS → s.handle_looper_info i = zero_params) ∧
    s.csmutex_count = 0

instance (s : State) : Decidable (IsInitial s) := by
  unfold IsInitial
  infer_instance

/-- A concrete initial state: everything zero, `jvm` set by `initNativeLib`. -/
def empty_registry : State :=
  { jvm := 1, dtp_index := 0, handle_looper_info := fun _ => zero_params, csmutex_count := 0,
    comm_mask := fun _ => 0, calls := [] }

/-- Results of a native call during which every external call succeeds: the global reference
is `11`, the event handle `12`, the thread handle `13`. -/
def all_succeed : OSResults :=
  { NewGlobalRef := 11, CreateEvent := 12, beginthreadex := 13, GetCommMask := true,
    SetCommMask := true, SetEvent := true, uninit_event_mask := 0, uninit_thread_handle := 0 }

/-- A registry with one entry, at slot `0`, for the device handle `5`; the device watches both
kinds of condition: its mask holds `EV_RXCHAR` and the line and error bits.  This is the state
after a data listener and then an event listener were attached to handle `5`. -/
def both_attached : State :=
  { jvm := 1, dtp_index := 1,
    handle_looper_info := Function.update (fun _ => zero_params) 0
      { jvm := 1, hComm := 5, looper := 11, data_enabled := 1, event_enabled := 0,
        thread_exit := 0, csmutex := true, wait_event_handles_0 := 12,
        wait_event_handles_1 := 0, thread_handle := 13 },
    csmutex_count := 0,
    comm_mask := Function.update (fun _ => 0) 5
      (EV_RXCHAR ||| EV_BREAK ||| EV_CTS ||| EV_DSR ||| EV_ERR ||| EV_RING ||| EV_RLSD
        ||| EV_RXFLAG),
    calls := [] }

/-- A registry with one entry, at slot `0`, for the device handle `5`, created by attaching a
data listener: the device watches `EV_RXCHAR` only. -/
def data_attached : State :=
  { jvm := 1, dtp_index := 1,
    handle_looper_info := Function.update (fun _ => zero_params) 0
      { jvm := 1, hComm := 5, looper := 11, data_enabled := 1, event_enabled := 0,
        thread_exit := 0, csmutex := true, wait_event_handles_0 := 12,
        wait_event_handles_1 := 0, thread_handle := 13 },
    csmutex_count := 0,
    comm_mask := Function.update (fun _ => 0) 5 EV_RXCHAR,
    calls := [] }

/-- A registry with one entry, at slot `0`, for the device handle `5`, created by attaching
an event listener: the device watches the line and error bits only. -/
def event_attached : State :=
  { jvm := 1, dtp_index := 1,
    handle_looper_info := Function.update (fun _ => zero_params) 0
      { jvm := 1, hComm := 5, looper := 11, data_enabled := 0, event_enabled := 1,
        thread_exit := 0, csmutex := true, wait_event_handles_0 := 12,
        wait_event_handles_1 := 0, thread_handle := 13 },
    csmutex_count := 0,
    comm_mask := Function.update (fun _ => 0) 5
      (EV_BREAK ||| EV_CTS ||| EV_DSR ||| EV_ERR ||| EV_RING ||| EV_RLSD ||| EV_RXFLAG),
    calls := [] }

/-- A registry at capacity: `dtp_index = MAX_NUM_THREADS` and slot `i` of the table holds the
device handle `i + 1`, so the handles are distinct and not `NULL`.  The memory behind the
table is zero. -/
def full_registry : State :=
  { jvm := 1, dtp_index := MAX_NUM_THREADS,
    handle_looper_info := fun i =>
      if i < MAX_NUM_THREADS then
        { jvm := 1, hComm := i + 1, looper := 11, data_enabled := 1, event_enabled := 0,
          thread_exit := 0, csmutex := true, wait_event_handles_0 := 12,
          wait_event_handles_1 := 0, thread_handle := 13 }
      else zero_params,
    csmutex_count := 0,
    comm_mask := fun _ => EV_RXCHAR,
    calls := [] }

/-- One call of an attach or detach entry point, with its arguments. -/
inductive NativeCall where
  | setUpDataLooperThread (handle : HANDLE) (looper : jobject)
  | setUpEventLooperThread (handle : HANDLE) (looper : jobject)
  | destroyDataLooperThread (handle : HANDLE)
  | destroyEventLooperThread (handle : HANDLE)

/-- Run one call to completion. -/
def NativeCall.run (os : OSResults) (c : NativeCall) (s : State) : Int × State :=
  match c with
  | NativeCall.setUpDataLooperThread handle looper => WindowsSerial.setUpDataLooperThread os handle looper s
  | NativeCall.setUpEventLooperThread handle looper => WindowsSerial.setUpEventLooperThread os handle looper s
  | NativeCall.destroyDataLooperThread handle => WindowsSerial.destroyDataLooperThread os handle s
  | NativeCall.destroyEventLooperThread handle => WindowsSerial.destroyEventLooperThread os handle s

/-- The states reached from an initial state by attach and detach calls that run one at a
time.  Every call may see any results of its external calls; it is made while
`dtp_index < MAX_NUM_THREADS`. -/
inductive Reachable : State → Prop where
  | init (s : State) : IsInitial s → Reachable s
  | call (s : State) (os : OSResults) (c : NativeCall) :
      Reachable s → s.dtp_index < MAX_NUM_THREADS → Reachable (c.run os s).2

/-- No two slots of the table hold the same device handle, `NULL` apart. -/
def HandlesUnique (s : State) : Prop :=
  ∀ i, i < MAX_NUM_THREADS → ∀ j, j < MAX_NUM_THREADS → i ≠ j →
    (s.handle_looper_info i).hComm ≠ 0 →
    (s.handle_looper_info i).hComm ≠ (s.handle_looper_info j).hComm

instance (s : State) : Decidable (HandlesUnique s) := by
  unfold HandlesUnique
  infer_instance

/-- Run a finite sequence of attach and detach calls one after the other, each with the
results its external calls give. -/
def run_calls : List (OSResults × NativeCall) → State → State
  | [], s => s
  | (os, c) :: rest, s => run_calls rest (c.run os s).2

/-- Every slot of the table that holds a device handle has one of its two listener flags set. -/
def EntriesHaveListener (s : State) : Prop :=
  ∀ i, i < MAX_NUM_THREADS → (s.handle_looper_info i).hComm ≠ 0 →
    (s.handle_looper_info i).data_enabled = 1 ∨ (s.handle_looper_info i).event_enabled = 1

instance (s : State) : Decidable (EntriesHaveListener s) := by
  unfold EntriesHaveListener
  infer_instance

/-- Results of a native call during which the global reference (`11`) and the wait event (`12`)
are created but `_beginthreadex` returns `0`: the worker thread cannot be started. -/
def thread_fails : OSResults :=
  { NewGlobalRef := 11, CreateEvent := 12, beginthreadex := 0, GetCommMask := true,
    SetCommMask := true, SetEvent := true, uninit_event_mask := 0, uninit_thread_handle := 0 }

/-- The statements of `setUpDataLooperThread` that follow its lookup loop, as a function of the
value the loop left in the local `thread_exist`.  The loop itself only reads the table and
runs before `setupLooperThread` enters the critical section. -/
def setUpDataLooperThread_after_lookup (os : OSResults) (handle : HANDLE) (looper : jobject)
    (thread_exist : Bool) (s : State) : Int × State :=
  let hComm := handle
  if thread_exist then
    -- ret = GetCommMask(hComm, &event_mask);
    let event_mask := if os.GetCommMask then s.comm_mask hComm else os.uninit_event_mask
    let s := s.log (OSCall.GetCommMask hComm)
    -- updated_mask = event_mask | EV_RXCHAR;
    let updated_mask := event_mask ||| EV_RXCHAR
    -- ret = SetCommMask(hComm, updated_mask);
    let s := s.log (OSCall.SetCommMask hComm updated_mask)
    if os.SetCommMask = false then
      (-240, s.log (OSCall.ClearCommError hComm))
    else
      let s := { s with comm_mask := Function.update s.comm_mask hComm updated_mask }
      (-1, s)
  else
    -- return setupLooperThread(env, obj, handle, looper, 1, 0);
    setupLooperThread os handle looper 1 0 s

/-- Two threads call `setUpDataLooperThread` for the same handle.  The schedule: thread 1 runs
its lookup loop, thread 2 runs its lookup loop, thread 1 runs the rest of its call to the
end, thread 2 runs the rest of its call to the end.  Both loops therefore read the table of
the starting state.  The result is the two return values and the final state. -/
def two_attaches_lookup_first (os1 os2 : OSResults) (handle : HANDLE) (looper1 looper2 : jobject)
    (s : State) : (Int × Int) × State :=
  let thread_exist1 := (lookup s.handle_looper_info handle).2
  let thread_exist2 := (lookup s.handle_looper_info handle).2
  let r1 := setUpDataLooperThread_after_lookup os1 handle looper1 thread_exist1 s
  let r2 := setUpDataLooperThread_after_lookup os2 handle looper2 thread_exist2 r1.2
  ((r1.1, r2.1), r2.2)

/-- The function `Java_com_embeddedunveiled_serial_SerialComJNINativeInterface_closeComPort`.
The two flags are whether `FlushFileBuffers` and `CloseHandle` report success. -/
def closeComPort (flush_ok close_ok : Bool) (handle : HANDLE) (s : State) : Int × State :=
  let hComm := handle
  -- ret = FlushFileBuffers(hComm); if(ret == 0) { only diagnostic output }
  let _ret := flush_ok
  let s := s.log (OSCall.FlushFileBuffers hComm)
  -- ret = CloseHandle(hComm);
  let s := s.log (OSCall.CloseHandle hComm)
  if close_ok = false then
    -- return -240;
    (-240, s)
  else
    (0, s)

/-! ### Port configuration and status queries

These entry points do not touch the listener registry.  They are embedded over the values the
operating system hands back: the device control block of the port for the two configuration
calls, the modem status word, the queue lengths.  A `jint` is an `Int`, converted to and from
the unsigned Windows types with the wrap-around of the C casts. -/

/-- The C conversion of a `jint` to a `DWORD` (32 bit, unsigned). -/
def to_DWORD (x : Int) : DWORD := (x % 4294967296).toNat

/-- The C cast `(jint)` of a `DWORD`: the same 32 bits read as a signed number. -/
def to_jint (n : DWORD) : Int :=
  if n % 4294967296 < 2147483648 then ((n % 4294967296 : Nat) : Int)
  else ((n % 4294967296 : Nat) : Int) - 4294967296

/-- The C cast `(BYTE)` of a `jint`. -/
def to_BYTE (x : Int) : Nat := (x % 256).toNat

/-- The C cast `(char)` of a `jchar` (16 bit, unsigned), as the byte that is stored. -/
def to_char (c : Nat) : Nat := c % 256

/-- The size of a `jint` in bytes (JNI: a 32 bit integer). -/
def sizeof_jint : Nat := 4

/-- Windows SDK (`winbase.h`): size of a `DCB` in bytes. -/
def sizeof_DCB : Nat := 28

/-- Windows SDK (`winbase.h`): modem status bit, CTS is on. -/
def MS_CTS_ON : DWORD := 0x0010
/-- Windows SDK (`winbase.h`): modem status bit, DSR is on. -/
def MS_DSR_ON : DWORD := 0x0020
/-- Windows SDK (`winbase.h`): modem status bit, the ring indicator is on. -/
def MS_RING_ON : DWORD := 0x0040
/-- Windows SDK (`winbase.h`): modem status bit, RLSD (carrier detect) is on. -/
def MS_RLSD_ON : DWORD := 0x0080

/-- Windows SDK (`winbase.h`). -/
def ONESTOPBIT : Nat := 0
/-- Windows SDK (`winbase.h`). -/
def ONE5STOPBITS : Nat := 1
/-- Windows SDK (`winbase.h`). -/
def TWOSTOPBITS : Nat := 2
/-- Windows SDK (`winbase.h`). -/
def NOPARITY : Nat := 0
/-- Windows SDK (`winbase.h`). -/
def ODDPARITY : Nat := 1
/-- Windows SDK (`winbase.h`). -/
def EVENPARITY : Nat := 2
/-- Windows SDK (`winbase.h`). -/
def MARKPARITY : Nat := 3
/-- Windows SDK (`winbase.h`). -/
def SPACEPARITY : Nat := 4
/-- Windows SDK (`winbase.h`). -/
def DTR_CONTROL_DISABLE : Nat := 0
/-- Windows SDK (`winbase.h`). -/
def DTR_CONTROL_HANDSHAKE : Nat := 2
/-- Windows SDK (`winbase.h`). -/
def RTS_CONTROL_DISABLE : Nat := 0
/-- Windows SDK (`winbase.h`). -/
def RTS_CONTROL_HANDSHAKE : Nat := 2
/-- Windows SDK (`winerror.h`). -/
def ERROR_INVALID_PARAMETER : DWORD := 87
/-- C runtime (`errno.h`). -/
def EINVAL : Int := 22

/-- The fields of the Windows device control block `DCB` that the two configuration entry
points write. -/
structure DCB where
  DCBlength : DWORD
  BaudRate : DWORD
  fParity : Bool
  fOutxCtsFlow : Bool
  fOutxDsrFlow : Bool
  fDtrControl : Nat
  fDsrSensitivity : Bool
  fOutX : Bool
  fInX : Bool
  fRtsControl : Nat
  XonLim : Nat
  XoffLim : Nat
  ByteSize : Nat
  Parity : Nat
  StopBits : Nat
  XonChar : Nat
  XoffChar : Nat
  deriving DecidableEq, Repr

/-- A `DCB` filled with zero bytes (`DCB dcb = { 0 }`, `SecureZeroMemory`, `FillMemory`). -/
def zero_DCB : DCB :=
  { DCBlength := 0, BaudRate := 0, fParity := false, fOutxCtsFlow := false,
    fOutxDsrFlow := false, fDtrControl := 0, fDsrSensitivity := false, fOutX := false,
    fInX := false, fRtsControl := 0, XonLim := 0, XoffLim := 0, ByteSize := 0, Parity := 0,
    StopBits := 0, XonChar := 0, XoffChar := 0 }

/-- What a configuration entry point leaves behind: the returned `jint`, the local `dcb` as it
is when the function returns, and the control block of the device after the call. -/
structure ConfigResult where
  ret : Int
  dcb : DCB
  device : DCB
  deriving DecidableEq, Repr

/-- The `switch (baudRateTranslated)` of `configureComPortData`, entered with `baud` holding its
initial value `(DWORD)-1`.  The `CBR_` constants of `winbase.h` are the rates themselves. -/
def switch_baud (baudRateTranslated : Int) : DWORD :=
  if baudRateTranslated = 0 then 0
  else if baudRateTranslated = 50 then 50
  else if baudRateTranslated = 75 then 75
  else if baudRateTranslated = 110 then 110
  else if baudRateTranslated = 134 then 134
  else if baudRateTranslated = 150 then 150
  else if baudRateTranslated = 200 then 200
  else if baudRateTranslated = 300 then 300
  else if baudRateTranslated = 600 then 600
  else if baudRateTranslated = 1200 then 1200
  else if baudRateTranslated = 1800 then 1800
  else if baudRateTranslated = 2400 then 2400
  else if baudRateTranslated = 4800 then 4800
  else if baudRateTranslated = 9600 then 9600
  else if baudRateTranslated = 14400 then 14400
  else if baudRateTranslated = 19200 then 19200
  else if baudRateTranslated = 28800 then 28800
  else if baudRateTranslated = 38400 then 38400
  else if baudRateTranslated = 56000 then 56000
  else if baudRateTranslated = 57600 then 57600
  else if baudRateTranslated = 115200 then 115200
  else if baudRateTranslated = 128000 then 128000
  else if baudRateTranslated = 153600 then 153600
  else if baudRateTranslated = 230400 then 230400
  else if baudRateTranslated = 256000 then 256000
  else if baudRateTranslated = 460800 then 460800
  else if baudRateTranslated = 500000 then 500000
  else if baudRateTranslated = 576000 then 576000
  else if baudRateTranslated = 921600 then 921600
  else if baudRateTranslated = 1000000 then 1000000
  else if baudRateTranslated = 1152000 then 1152000
  else if baudRateTranslated = 1500000 then 1500000
  else if baudRateTranslated = 2000000 then 2000000
  else if baudRateTranslated = 2500000 then 2500000
  else if baudRateTranslated = 3000000 then 3000000
  else if baudRateTranslated = 3500000 then 3500000
  else if baudRateTranslated = 4000000 then 4000000
  else to_DWORD (-1)

/-- The case labels of the `switch (baudRateTranslated)` of `configureComPortData`, in the
order of the source. -/
def switch_case_labels : List Int :=
  [0, 50, 75, 110, 134, 150, 200, 300, 600, 1200, 1800, 2400, 4800, 9600, 14400, 19200, 28800,
   38400, 56000, 57600, 115200, 128000, 153600, 230400, 256000, 460800, 500000, 576000, 921600,
   1000000, 1152000, 1500000, 2000000, 2500000, 3000000, 3500000, 4000000]

/-- The stop bits block of `configureComPortData`:
`if(stopBits == 1) {...} else if(stopBits == 4) {...} else if(stopBits == 2) {...}`. -/
def set_stop_bits (stopBits : Int) (dcb : DCB) : DCB :=
  if stopBits = 1 then { dcb with StopBits := ONESTOPBIT }
  else if stopBits = 4 then { dcb with StopBits := ONE5STOPBITS }
  else if stopBits = 2 then { dcb with StopBits := TWOSTOPBITS }
  else dcb

/-- The parity block of `configureComPortData`: `dcb.fParity = TRUE;` followed by the chain
`if(parity == 1) {...} else if (parity == 2) {...} ... else if (parity == 5) {...}`. -/
def set_parity (parity : Int) (dcb : DCB) : DCB :=
  let dcb := { dcb with fParity := true }
  if parity = 1 then { dcb with fParity := false, Parity := NOPARITY }
  else if parity = 2 then { dcb with Parity := ODDPARITY }
  else if parity = 3 then { dcb with Parity := EVENPARITY }
  else if parity = 4 then { dcb with Parity := MARKPARITY }
  else if parity = 5 then { dcb with Parity := SPACEPARITY }
  else dcb

/-- The function `Java_com_embeddedunveiled_serial_SerialComJNINativeInterface_configureComPortData`.
The flags `get_ok` and `set_ok` are whether `GetCommState` and `SetCommState` report success,
`errorVal` is what `GetLastError` gives after a failed `SetCommState`, `device` is the control
block of the port before the call. -/
def configureComPortData (get_ok set_ok : Bool) (errorVal : DWORD)
    (dataBits stopBits parity baudRateTranslated custBaudTranslated : Int) (device : DCB) :
    ConfigResult :=
  -- SecureZeroMemory(&dcb, sizeof(DCB)); dcb.DCBlength = sizeof(DCB);
  let dcb : DCB := { zero_DCB with DCBlength := sizeof_DCB }
  -- ret = GetCommState(hComm, &dcb); if(ret == 0) return -240;
  if get_ok = false then { ret := -240, dcb := dcb, device := device } else
  let dcb : DCB := device
  -- DWORD baud = -1; if(baudRateTranslated == 251) baud = custBaudTranslated; else switch ...
  let baud : DWORD :=
    if baudRateTranslated = 251 then to_DWORD custBaudTranslated
    else switch_baud baudRateTranslated
  -- dcb.BaudRate = baud;
  let dcb := { dcb with BaudRate := baud }
  -- dcb.ByteSize = (BYTE)dataBits;
  let dcb := { dcb with ByteSize := to_BYTE dataBits }
  -- stop bits, then parity
  let dcb := set_stop_bits stopBits dcb
  let dcb := set_parity parity dcb
  -- ret = SetCommState(hComm, &dcb);
  if set_ok = false then
    -- if(errorVal == ERROR_INVALID_PARAMETER) return (negative * EINVAL); return -240;
    if errorVal = ERROR_INVALID_PARAMETER then { ret := -1 * EINVAL, dcb := dcb, device := device }
    else { ret := -240, dcb := dcb, device := device }
  else
    -- PurgeComm(hComm, PURGE_RXCLEAR | PURGE_TXCLEAR); return 0;
    { ret := 0, dcb := dcb, device := dcb }

/-- The function `Java_com_embeddedunveiled_serial_SerialComJNINativeInterface_configureComPortControl`.
The flag `get_ok` is whether `GetCommState` reports success, `device` is the control block of
the port before the call.  The function makes no other call that takes the `dcb`. -/
def configureComPortControl (get_ok : Bool) (flowctrl : Int) (xon xoff : Nat)
    (_ParFraError _overFlowErr : Bool) (device : DCB) : ConfigResult :=
  -- FillMemory(&dcb, sizeof(dcb), 0); dcb.DCBlength = sizeof(DCB);
  let dcb : DCB := { zero_DCB with DCBlength := sizeof_DCB }
  -- ret = GetCommState(hComm, &dcb); if(ret == 0) return -240;
  if get_ok = false then { ret := -240, dcb := dcb, device := device } else
  let dcb : DCB := device
  let dcb :=
    if flowctrl = 1 then
      { dcb with fOutX := false, fInX := false, fOutxCtsFlow := false, fOutxDsrFlow := false,
                 fDsrSensitivity := false, fDtrControl := DTR_CONTROL_DISABLE,
                 fRtsControl := RTS_CONTROL_DISABLE }
    else if flowctrl = 2 then
      { dcb with fOutX := false, fInX := false, fOutxCtsFlow := true, fOutxDsrFlow := true,
                 fDsrSensitivity := true, fRtsControl := RTS_CONTROL_HANDSHAKE,
                 fDtrControl := DTR_CONTROL_HANDSHAKE }
    else if flowctrl = 3 then
      { dcb with fOutX := true, fInX := true, fOutxCtsFlow := false, fOutxDsrFlow := false,
                 fDsrSensitivity := false, fDtrControl := DTR_CONTROL_DISABLE,
                 fRtsControl := RTS_CONTROL_DISABLE, XonChar := to_char xon,
                 XoffChar := to_char xoff, XonLim := 2048, XoffLim := 512 }
    else dcb
  -- return 0;
  { ret := 0, dcb := dcb, device := device }

/-- The function `Java_com_embeddedunveiled_serial_SerialComJNINativeInterface_getLinesStatus`:
the content of the `jintArray` it returns.  The argument is the word `GetCommModemStatus`
stores, or `none` when that call fails. -/
def getLinesStatus (modem_stat : Option DWORD) : List Int :=
  -- jint status[8] = { 0, 0, 0, 0, 0, 0, 0, 0 }; current_status = NewIntArray(env, 8);
  match modem_stat with
  | none =>
    -- status[0] = -240; SetIntArrayRegion(env, current_status, 0, 8, status);
    [-240, 0, 0, 0, 0, 0, 0, 0]
  | some modem_stat =>
    [0,
     if modem_stat &&& MS_CTS_ON ≠ 0 then 1 else 0,
     if modem_stat &&& MS_DSR_ON ≠ 0 then 1 else 0,
     if modem_stat &&& MS_RLSD_ON ≠ 0 then 1 else 0,
     if modem_stat &&& MS_RING_ON ≠ 0 then 1 else 0,
     0, 0, 0]

/-- The function `Java_com_embeddedunveiled_serial_SerialComJNINativeInterface_getByteCount`:
the content of the `jintArray` it returns.  The flag is whether `ClearCommError` reports
success, the two numbers are the fields `cbInQue` and `cbOutQue` of the `COMSTAT` it fills. -/
def getByteCount (clear_ok : Bool) (cbInQue cbOutQue : DWORD) : List Int :=
  -- jint val[3] = { 0, 0, 0 }; values = NewIntArray(env, 3);
  if clear_ok = false then
    -- val[0] = -240; SetIntArrayRegion(env, values, 0, 3, val);
    [-240, 0, 0]
  else
    -- val[0] = 0; val[1] = (jint)comstat.cbInQue; val[2] = (jint)comstat.cbOutQue;
    [0, to_jint cbInQue, to_jint cbOutQue]

/-- The function `Java_com_embeddedunveiled_serial_SerialComJNINativeInterface_getInterruptCount`:
the content of the `jintArray` it returns.  The local is `jint count_info[12] = { 0 }`; both the
length given to `NewIntArray` and the number of elements `SetIntArrayRegion` copies out of
`count_info` are `sizeof(count_info)`, the size of the local in bytes.  The argument
`after_count_info` is the memory that follows the local, read as `jint`s: element `k` of it is
what lies at `count_info + 12 + k`. -/
def getInterruptCount (after_count_info : Nat → Int) : List Int :=
  let len := 12 * sizeof_jint
  (List.range len).map (fun k => if k < 12 then 0 else after_count_info (k - 12))

/-! ### Opening a port and clearing its buffers -/

/-- C runtime (`errno.h`). -/
def EBUSY : Int := 16
/-- C runtime (`errno.h`). -/
def EACCES : Int := 13
/-- C runtime (`errno.h`). -/
def ENXIO : Int := 6
/-- Windows SDK (`winerror.h`). -/
def ERROR_FILE_NOT_FOUND : DWORD := 2
/-- Windows SDK (`winerror.h`). -/
def ERROR_PATH_NOT_FOUND : DWORD := 3
/-- Windows SDK (`winerror.h`). -/
def ERROR_ACCESS_DENIED : DWORD := 5
/-- Windows SDK (`winerror.h`). -/
def ERROR_SHARING_VIOLATION : DWORD := 32
/-- Windows SDK (`winerror.h`). -/
def ERROR_INVALID_NAME : DWORD := 123
/-- Windows SDK (`winbase.h`): terminate outstanding writes. -/
def PURGE_TXABORT : DWORD := 0x0001
/-- Windows SDK (`winbase.h`): terminate outstanding reads. -/
def PURGE_RXABORT : DWORD := 0x0002
/-- Windows SDK (`winbase.h`): clear the output buffer. -/
def PURGE_TXCLEAR : DWORD := 0x0004
/-- Windows SDK (`winbase.h`): clear the input buffer. -/
def PURGE_RXCLEAR : DWORD := 0x0008

/-- The C cast `(jlong)` of a `HANDLE`: the 64 bits of the pointer read as a signed number. -/
def to_jlong (n : HANDLE) : Int :=
  if n % 18446744073709551616 < 9223372036854775808 then ((n % 18446744073709551616 : Nat) : Int)
  else ((n % 18446744073709551616 : Nat) : Int) - 18446744073709551616

/-- The function `Java_com_embeddedunveiled_serial_SerialComJNINativeInterface_openComPort`:
its return value.  The arguments are the results of the external calls: whether
`GetStringChars` gives a string, the handle `CreateFile` returns (`none` for
`INVALID_HANDLE_VALUE`) and what `GetLastError` gives after it, whether `GetCommState`,
`SetCommState` and `SetCommTimeouts` report success, and what `GetLastError` gives after a
failed `SetCommState`.  The access flags only select the arguments of `CreateFile`. -/
def openComPort (port_ok : Bool) (_enableRead _enableWrite _exclusiveOwner : Bool)
    (created : Option HANDLE) (create_errorVal : DWORD)
    (get_ok set_ok : Bool) (set_errorVal : DWORD) (timeouts_ok : Bool) : Int :=
  -- jint negative = -1;
  let negative : Int := -1
  -- port = GetStringChars(env, portName, JNI_FALSE); if(port == NULL) return -240;
  if port_ok = false then -240 else
  -- hComm = CreateFile(portFullName, OPEN_MODE, SHARING, NULL, OPEN_EXISTING, ..., NULL);
  match created with
  | none =>
    -- if(hComm == INVALID_HANDLE_VALUE) { errorVal = GetLastError(); ... }
    let errorVal := create_errorVal
    if errorVal = ERROR_SHARING_VIOLATION then negative * EBUSY
    else if errorVal = ERROR_ACCESS_DENIED then negative * EACCES
    else if errorVal = ERROR_FILE_NOT_FOUND ∨ errorVal = ERROR_PATH_NOT_FOUND then
      negative * ENXIO
    else if errorVal = ERROR_INVALID_NAME then negative * EINVAL
    else -240
  | some hComm =>
    -- ret = GetCommState(hComm, &dcb); if(ret == 0) { CloseHandle(hComm); return -EINVAL; }
    if get_ok = false then negative * EINVAL else
    -- ret = SetCommState(hComm, &dcb);
    if set_ok = false then
      if set_errorVal = ERROR_INVALID_PARAMETER then negative * EINVAL else -240
    else
    -- ret = SetCommTimeouts(hComm, &lpCommTimeouts); if(ret == 0) { ...; return -240; }
    if timeouts_ok = false then -240 else
    -- PurgeComm(...); return (jlong)hComm;
    to_jlong hComm

/-- The function `Java_com_embeddedunveiled_serial_SerialComJNINativeInterface_clearPortIOBuffers`:
the returned `jint` and the flags word that `PurgeComm` receives.  The flag `purge_ok` is
whether `PurgeComm` reports success.  (The line between the `if` chain and the call of
`PurgeComm` is a note of the author and not a statement.) -/
def clearPortIOBuffers (purge_ok : Bool) (rxPortbuf txPortbuf : Bool) : Int × DWORD :=
  -- jint PORTIOBUFFER = -1;
  let PORTIOBUFFER : Int := -1
  let PORTIOBUFFER : Int :=
    if rxPortbuf = true ∧ txPortbuf = true then ((PURGE_RXCLEAR ||| PURGE_TXCLEAR : Nat) : Int)
    else if rxPortbuf = true then ((PURGE_RXCLEAR : Nat) : Int)
    else if txPortbuf = true then ((PURGE_TXCLEAR : Nat) : Int)
    else PORTIOBUFFER
  -- ret = PurgeComm(hComm, PORTIOBUFFER);   (the jint is converted to the DWORD parameter)
  let dwFlags := to_DWORD PORTIOBUFFER
  if purge_ok = false then (-240, dwFlags) else (0, dwFlags)

/-! ### Counting the entries a sequence of calls creates -/

/-- Whether the call is one of the two attach entry points. -/
def NativeCall.is_attach : NativeCall → Bool
  | NativeCall.setUpDataLooperThread _ _ => true
  | NativeCall.setUpEventLooperThread _ _ => true
  | NativeCall.destroyDataLooperThread _ => false
  | NativeCall.destroyEventLooperThread _ => false

/-- The number of attach calls of a sequence that return `0` when the sequence is run from
the state `s`. -/
def count_successful_attaches : List (OSResults × NativeCall) → State → Nat
  | [], _ => 0
  | (os, c) :: rest, s =>
    (if c.is_attach = true ∧ (c.run os s).1 = 0 then 1 else 0)
      + count_successful_attaches rest (c.run os s).2

/-- Results of a native call during which `NewGlobalRef` returns `NULL`. -/
def ref_fails : OSResults :=
  { NewGlobalRef := 0, CreateEvent := 12, beginthreadex := 13, GetCommMask := true,
    SetCommMask := true, SetEvent := true, uninit_event_mask := 0, uninit_thread_handle := 0 }

/-- Results of a native call during which the global reference is created (`11`) but
`CreateEvent` returns `NULL`. -/
def event_fails : OSResults :=
  { NewGlobalRef := 11, CreateEvent := 0, beginthreadex := 13, GetCommMask := true,
    SetCommMask := true, SetEvent := true, uninit_event_mask := 0, uninit_thread_handle := 0 }

/-- Every attach call of the sequence, run from the state `s`, is made while
`dtp_index < MAX_NUM_THREADS`, so that the store `handle_looper_info[dtp_index] = params` of
`setupLooperThread` stays inside the table.  Detach calls never store at `dtp_index` and may
be made in any state. -/
def calls_in_bounds : List (OSResults × NativeCall) → State → Prop
  | [], _ => True
  | (os, c) :: rest, s =>
    (c.is_attach = true → s.dtp_index < MAX_NUM_THREADS) ∧ calls_in_bounds rest (c.run os s).2

/-! ## The lookup loop -/

theorem lookup_from_spec (info : Nat → looper_thread_params) (h : HANDLE) (fuel x : Nat) :
    ((lookup_from info h fuel x).2 = true →
        x ≤ (lookup_from info h fuel x).1 ∧ (lookup_from info h fuel x).1 < x + fuel ∧
        (info (lookup_from info h fuel x).1).hComm = h ∧
        ∀ j, x ≤ j → j < (lookup_from info h fuel x).1 → (info j).hComm ≠ h) ∧
    ((lookup_from info h fuel x).2 = false →
        (lookup_from info h fuel x).1 = x + fuel ∧
        ∀ j, x ≤ j → j < x + fuel → (info j).hComm ≠ h) := by
  induction fuel generalizing x with
  | zero =>
    refine ⟨fun hc => by simp [lookup_from] at hc, fun _ => ⟨by simp [lookup_from], ?_⟩⟩
    intro j h1 h2
    omega
  | succ n ih =>
    by_cases hx : (info x).hComm = h
    · have e : lookup_from info h (n + 1) x = (x, true) := by simp [lookup_from, hx]
      rw [e]
      refine ⟨fun _ => ⟨le_refl _, by omega, hx, ?_⟩, fun hc => by simp at hc⟩
      intro j h1 h2
      omega
    · have e : lookup_from info h (n + 1) x = lookup_from info h n (x + 1) := by
        simp [lookup_from, hx]
      rw [e]
      obtain ⟨ih1, ih2⟩ := ih (x + 1)
      refine ⟨fun hc => ?_, fun hc => ?_⟩
      · obtain ⟨a, b, c, d⟩ := ih1 hc
        refine ⟨by omega, by omega, c, ?_⟩
        intro j h1 h2
        rcases Nat.eq_or_lt_of_le h1 with h3 | h3
        · subst h3; exact hx
        · exact d j h3 h2
      · obtain ⟨a, b⟩ := ih2 hc
        refine ⟨by omega, ?_⟩
        intro j h1 h2
        rcases Nat.eq_or_lt_of_le h1 with h3 | h3
        · subst h3; exact hx
        · exact b j h3 (by omega)

/-- When no slot of the table holds the handle the loop runs to the end: `ptr` is one past the
last slot and `thread_exist` stays `0`. -/
theorem lookup_not_found (info : Nat → looper_thread_params) (h : HANDLE)
    (hno : ∀ i, i < MAX_NUM_THREADS → (info i).hComm ≠ h) :
    lookup info h = (MAX_NUM_THREADS, false) := by
  obtain ⟨h1, h2⟩ := lookup_from_spec info h MAX_NUM_THREADS 0
  cases hb : (lookup info h).2 with
  | true =>
    obtain ⟨_, b, c, _⟩ := h1 hb
    exact absurd c (hno _ (by simpa using b))
  | false =>
    obtain ⟨a, _⟩ := h2 hb
    exact Prod.ext (by simpa [lookup] using a) hb

/-- When slot `i` is the first slot of the table that holds the handle the loop stops there. -/
theorem lookup_found (info : Nat → looper_thread_params) (h : HANDLE) (i : Nat)
    (hi : i < MAX_NUM_THREADS) (hslot : (info i).hComm = h)
    (hfirst : ∀ j, j < i → (info j).hComm ≠ h) :
    lookup info h = (i, true) := by
  obtain ⟨h1, h2⟩ := lookup_from_spec info h MAX_NUM_THREADS 0
  cases hb : (lookup info h).2 with
  | true =>
    obtain ⟨_, b, c, d⟩ := h1 hb
    refine Prod.ext ?_ hb
    show (lookup_from info h MAX_NUM_THREADS 0).1 = i
    rcases Nat.lt_trichotomy (lookup_from info h MAX_NUM_THREADS 0).1 i with h3 | h3 | h3
    · exact absurd c (hfirst _ h3)
    · exact h3
    · exact absurd hslot (d i (Nat.zero_le _) h3)
  | false =>
    obtain ⟨_, b⟩ := h2 hb
    exact absurd hslot (b i (Nat.zero_le _) (by simpa using hi))

/-- The loop reports an existing thread exactly when some slot of the table holds the handle. -/
theorem lookup_exists_iff (info : Nat → looper_thread_params) (h : HANDLE) :
    (lookup info h).2 = true ↔ ∃ i, i < MAX_NUM_THREADS ∧ (info i).hComm = h := by
  constructor
  · intro hb
    obtain ⟨_, b, c, _⟩ := (lookup_from_spec info h MAX_NUM_THREADS 0).1 hb
    exact ⟨_, by simpa using b, c⟩
  · rintro ⟨i, hi, hc⟩
    cases hb : (lookup info h).2 with
    | true => rfl
    | false =>
      obtain ⟨_, b⟩ := (lookup_from_spec info h MAX_NUM_THREADS 0).2 hb
      exact absurd hc (b i (Nat.zero_le _) (by simpa using hi))

/-- The create path of `setupLooperThread` when the three creating calls succeed. -/
theorem setupLooperThread_success (os : OSResults) (h : HANDLE) (looper : jobject)
    (d e : Int) (s : State)
    (href : os.NewGlobalRef ≠ 0) (hev : os.CreateEvent ≠ 0) (hthr : os.beginthreadex ≠ 0) :
    (setupLooperThread os h looper d e s).1 = 0 ∧
    (setupLooperThread os h looper d e s).2.dtp_index = s.dtp_index + 1 ∧
    (setupLooperThread os h looper d e s).2.handle_looper_info =
      Function.update s.handle_looper_info s.dtp_index
        { jvm := s.jvm, hComm := h, looper := os.NewGlobalRef, data_enabled := d,
          event_enabled := e, thread_exit := 0, csmutex := true,
          wait_event_handles_0 := os.CreateEvent, wait_event_handles_1 := 0,
          thread_handle := os.beginthreadex } ∧
    (setupLooperThread os h looper d e s).2.comm_mask = s.comm_mask := by
  simp [setupLooperThread, href, hev, hthr, State.log]

/-- The existing-thread path of `setUpDataLooperThread`: it is taken when some slot holds the
handle; the table and `dtp_index` are not written, the result is `-1` or `-240`, and a
successful `SetCommMask` stores the mask that was read with `EV_RXCHAR` added. -/
theorem setUpDataLooperThread_existing (os : OSResults) (h : HANDLE) (looper : jobject)
    (s : State) (hex : ∃ i, i < MAX_NUM_THREADS ∧ (s.handle_looper_info i).hComm = h) :
    (setUpDataLooperThread os h looper s).2.handle_looper_info = s.handle_looper_info ∧
    (setUpDataLooperThread os h looper s).2.dtp_index = s.dtp_index ∧
    (os.SetCommMask = true →
      (setUpDataLooperThread os h looper s).1 = -1 ∧
      (setUpDataLooperThread os h looper s).2.comm_mask =
        Function.update s.comm_mask h
          ((if os.GetCommMask then s.comm_mask h else os.uninit_event_mask) ||| EV_RXCHAR)) ∧
    (os.SetCommMask = false →
      (setUpDataLooperThread os h looper s).1 = -240 ∧
      (setUpDataLooperThread os h looper s).2.comm_mask = s.comm_mask) := by
  have hb := (lookup_exists_iff s.handle_looper_info h).2 hex
  cases hs : os.SetCommMask <;> simp [setUpDataLooperThread, hb, hs, State.log]

/-- The existing-thread path of `setUpEventLooperThread`, as for the data listener with the
line and error bits in place of `EV_RXCHAR`. -/
theorem setUpEventLooperThread_existing (os : OSResults) (h : HANDLE) (looper : jobject)
    (s : State) (hex : ∃ i, i < MAX_NUM_THREADS ∧ (s.handle_looper_info i).hComm = h) :
    (setUpEventLooperThread os h looper s).2.handle_looper_info = s.handle_looper_info ∧
    (setUpEventLooperThread os h looper s).2.dtp_index = s.dtp_index ∧
    (os.SetCommMask = true →
      (setUpEventLooperThread os h looper s).1 = -1 ∧
      (setUpEventLooperThread os h looper s).2.comm_mask =
        Function.update s.comm_mask h
          ((if os.GetCommMask then s.comm_mask h else os.uninit_event_mask)
            ||| EV_BREAK ||| EV_CTS ||| EV_DSR ||| EV_ERR ||| EV_RING ||| EV_RLSD ||| EV_RXFLAG)) ∧
    (os.SetCommMask = false →
      (setUpEventLooperThread os h looper s).1 = -240 ∧
      (setUpEventLooperThread os h looper s).2.comm_mask = s.comm_mask) := by
  have hb := (lookup_exists_iff s.handle_looper_info h).2 hex
  cases hs : os.SetCommMask <;> simp [setUpEventLooperThread, hb, hs, State.log]

/-- The create path is taken when no slot of the table holds the handle. -/
theorem setUpDataLooperThread_create (os : OSResults) (h : HANDLE) (looper : jobject)
    (s : State) (hno : ∀ i, i < MAX_NUM_THREADS → (s.handle_looper_info i).hComm ≠ h) :
    setUpDataLooperThread os h looper s = setupLooperThread os h looper 1 0 s := by
  simp [setUpDataLooperThread, lookup_not_found _ _ hno]

/-- The create path is taken when no slot of the table holds the handle. -/
theorem setUpEventLooperThread_create (os : OSResults) (h : HANDLE) (looper : jobject)
    (s : State) (hno : ∀ i, i < MAX_NUM_THREADS → (s.handle_looper_info i).hComm ≠ h) :
    setUpEventLooperThread os h looper s = setupLooperThread os h looper 0 1 s := by
  simp [setUpEventLooperThread, lookup_not_found _ _ hno]

/-- In both detach entry points `b` is `0 & EV_...`, so the test `(b & event_mask) == 1` fails
for every mask. -/
theorem detach_test_fails (bit event_mask : DWORD) : ¬ (((0 : DWORD) &&& bit) &&& event_mask = 1) := by
  simp

/-- The entry point `destroyDataLooperThread` when `GetCommMask` succeeds and slot `i` is the
first slot holding the handle. -/
theorem destroyDataLooperThread_found (os : OSResults) (h : HANDLE) (s : State) (i : Nat)
    (hi : i < MAX_NUM_THREADS) (hslot : (s.handle_looper_info i).hComm = h)
    (hfirst : ∀ j, j < i → (s.handle_looper_info j).hComm ≠ h)
    (hget : os.GetCommMask = true) :
    destroyDataLooperThread os h s =
      (0, { s with
              handle_looper_info := Function.update s.handle_looper_info i
                { (s.handle_looper_info i) with thread_exit := 1 },
              calls := s.calls ++ [OSCall.GetCommMask h,
                OSCall.SetEvent (s.handle_looper_info i).wait_event_handles_0] }) := by
  simp [destroyDataLooperThread, hget, lookup_found _ _ i hi hslot hfirst, State.log]

/-- The entry point `destroyEventLooperThread` when slot `i` is the first slot holding the
handle. -/
theorem destroyEventLooperThread_found (os : OSResults) (h : HANDLE) (s : State) (i : Nat)
    (hi : i < MAX_NUM_THREADS) (hslot : (s.handle_looper_info i).hComm = h)
    (hfirst : ∀ j, j < i → (s.handle_looper_info j).hComm ≠ h) :
    destroyEventLooperThread os h s =
      (0, { s with
              handle_looper_info := Function.update s.handle_looper_info i
                { (s.handle_looper_info i) with thread_exit := 1 },
              calls := s.calls ++ [OSCall.GetCommMask h,
                OSCall.SetEvent (s.handle_looper_info i).wait_event_handles_0] }) := by
  simp [destroyEventLooperThread, lookup_found _ _ i hi hslot hfirst, State.log]

/-- The entry point `destroyDataLooperThread` when `GetCommMask` succeeds and no slot holds
the handle: `ptr` ends one past the table and is still dereferenced for `SetEvent`. -/
theorem destroyDataLooperThread_not_found (os : OSResults) (h : HANDLE) (s : State)
    (hno : ∀ i, i < MAX_NUM_THREADS → (s.handle_looper_info i).hComm ≠ h)
    (hget : os.GetCommMask = true) :
    destroyDataLooperThread os h s =
      (0, { s with
              calls := s.calls ++ [OSCall.GetCommMask h,
                OSCall.SetEvent (s.handle_looper_info MAX_NUM_THREADS).wait_event_handles_0] }) := by
  simp [destroyDataLooperThread, hget, lookup_not_found _ _ hno, State.log]

/-- The entry point `destroyDataLooperThread` when `GetCommMask` fails. -/
theorem destroyDataLooperThread_get_fails (os : OSResults) (h : HANDLE) (s : State)
    (hget : os.GetCommMask = false) :
    destroyDataLooperThread os h s =
      (0, { s with
              calls := s.calls ++ [OSCall.GetCommMask h, OSCall.ClearCommError h] }) := by
  simp [destroyDataLooperThread, hget, State.log]

/-- The entry point `destroyEventLooperThread` when no slot holds the handle. -/
theorem destroyEventLooperThread_not_found (os : OSResults) (h : HANDLE) (s : State)
    (hno : ∀ i, i < MAX_NUM_THREADS → (s.handle_looper_info i).hComm ≠ h) :
    destroyEventLooperThread os h s =
      (0, { s with
              calls := s.calls ++ [OSCall.GetCommMask h,
                OSCall.SetEvent (s.handle_looper_info MAX_NUM_THREADS).wait_event_handles_0] }) := by
  simp [destroyEventLooperThread, lookup_not_found _ _ hno, State.log]

/-- Neither detach entry point ever changes a device mask, `dtp_index` or the handle stored in
a slot, and both always return `0`. -/
theorem destroy_frame (os : OSResults) (h : HANDLE) (s : State) :
    ((destroyDataLooperThread os h s).1 = 0 ∧
      (destroyDataLooperThread os h s).2.comm_mask = s.comm_mask ∧
      (destroyDataLooperThread os h s).2.dtp_index = s.dtp_index ∧
      ∀ j, ((destroyDataLooperThread os h s).2.handle_looper_info j).hComm
        = (s.handle_looper_info j).hComm) ∧
    ((destroyEventLooperThread os h s).1 = 0 ∧
      (destroyEventLooperThread os h s).2.comm_mask = s.comm_mask ∧
      (destroyEventLooperThread os h s).2.dtp_index = s.dtp_index ∧
      ∀ j, ((destroyEventLooperThread os h s).2.handle_looper_info j).hComm
        = (s.handle_looper_info j).hComm) := by
  have key : ∀ j, ((if (lookup s.handle_looper_info h).2 = true then
        Function.update s.handle_looper_info (lookup s.handle_looper_info h).1
          { (s.handle_looper_info (lookup s.handle_looper_info h).1) with thread_exit := 1 }
      else s.handle_looper_info) j).hComm = (s.handle_looper_info j).hComm := by
    intro j
    split
    · by_cases hj : j = (lookup s.handle_looper_info h).1
      · subst hj; simp
      · simp [Function.update, hj]
    · rfl
  refine ⟨?_, ?_⟩
  · cases hget : os.GetCommMask
    · simp [destroyDataLooperThread_get_fails os h s hget]
    · refine ⟨?_, ?_, ?_, ?_⟩
      · simp [destroyDataLooperThread, hget, State.log]
      · simp only [destroyDataLooperThread, hget, State.log]
        simp
        split <;> rfl
      · simp only [destroyDataLooperThread, hget, State.log]
        simp
        split <;> rfl
      · intro j
        have := key j
        simp only [destroyDataLooperThread, hget, State.log]
        simp
        split <;> simp_all
  · refine ⟨?_, ?_, ?_, ?_⟩
    · simp [destroyEventLooperThread, State.log]
    · simp only [destroyEventLooperThread, State.log]
      simp
      split <;> rfl
    · simp only [destroyEventLooperThread, State.log]
      simp
      split <;> rfl
    · intro j
      have := key j
      simp only [destroyEventLooperThread, State.log]
      simp
      split <;> simp_all

/-- The seven line and error bits, or-ed into a mask one after the other as the source does,
amount to or-ing their union. -/
theorem lor_line_event_bits (m : Nat) :
    m ||| EV_BREAK ||| EV_CTS ||| EV_DSR ||| EV_ERR ||| EV_RING ||| EV_RLSD ||| EV_RXFLAG
      = m ||| (EV_BREAK ||| EV_CTS ||| EV_DSR ||| EV_ERR ||| EV_RING ||| EV_RLSD ||| EV_RXFLAG) := by
  simp only [Nat.lor_assoc]

/-- The handles in the table after `setupLooperThread`: either none changed (the call failed
before the table was written) or slot `dtp_index` now holds the handle of the call and every
other slot holds what it held. -/
theorem setupLooperThread_hComm (os : OSResults) (h : HANDLE) (looper : jobject)
    (d e : Int) (s : State) :
    (∀ j, ((setupLooperThread os h looper d e s).2.handle_looper_info j).hComm
      = (s.handle_looper_info j).hComm) ∨
    (∀ j, ((setupLooperThread os h looper d e s).2.handle_looper_info j).hComm
      = if j = s.dtp_index then h else (s.handle_looper_info j).hComm) := by
  by_cases href : os.NewGlobalRef = 0
  · left; intro j; simp [setupLooperThread, href, State.log]
  · by_cases hev : os.CreateEvent = 0
    · left; intro j; simp [setupLooperThread, href, hev, State.log]
    · right
      intro j
      by_cases hthr : os.beginthreadex = 0 <;> by_cases hj : j = s.dtp_index <;>
        simp [setupLooperThread, href, hev, hthr, State.log, Function.update, hj]

/-- Writing the handle `h` into one slot keeps the handles of the table distinct when no slot
of the table held `h` before. -/
theorem HandlesUnique_of_write (s t : State) (h : HANDLE) (d : Nat)
    (hu : HandlesUnique s)
    (hno : ∀ i, i < MAX_NUM_THREADS → (s.handle_looper_info i).hComm ≠ h)
    (ht : ∀ j, (t.handle_looper_info j).hComm
      = if j = d then h else (s.handle_looper_info j).hComm) :
    HandlesUnique t := by
  intro i hi j hj hij hnz
  rw [ht i, ht j]
  rw [ht i] at hnz
  by_cases hid : i = d
  · have hjd : j ≠ d := fun e => hij (hid.trans e.symm)
    simp only [hid, hjd, if_true, if_false]
    exact fun e => hno j hj e.symm
  · by_cases hjd : j = d
    · simp only [hid, hjd, if_true, if_false]
      exact hno i hi
    · simp only [hid, hjd, if_false] at hnz ⊢
      exact hu i hi j hj hij hnz

/-- A call that leaves the handle of every slot as it was keeps the handles distinct. -/
theorem HandlesUnique_of_same (s t : State) (hu : HandlesUnique s)
    (ht : ∀ j, (t.handle_looper_info j).hComm = (s.handle_looper_info j).hComm) :
    HandlesUnique t := by
  intro i hi j hj hij hnz
  rw [ht i, ht j]
  rw [ht i] at hnz
  exact hu i hi j hj hij hnz

/-- Every attach and detach call keeps the handles of the table distinct. -/
theorem HandlesUnique_run (os : OSResults) (c : NativeCall) (s : State)
    (hu : HandlesUnique s) : HandlesUnique (c.run os s).2 := by
  have attach : ∀ (d e : Int) (handle : HANDLE) (looper : jobject),
      (∀ i, i < MAX_NUM_THREADS → (s.handle_looper_info i).hComm ≠ handle) →
      HandlesUnique (setupLooperThread os handle looper d e s).2 := by
    intro d e handle looper hno
    rcases setupLooperThread_hComm os handle looper d e s with hs | hs
    · exact HandlesUnique_of_same s _ hu hs
    · exact HandlesUnique_of_write s _ handle s.dtp_index hu hno hs
  cases c with
  | setUpDataLooperThread handle looper =>
    show HandlesUnique (setUpDataLooperThread os handle looper s).2
    by_cases hex : ∃ i, i < MAX_NUM_THREADS ∧ (s.handle_looper_info i).hComm = handle
    · exact HandlesUnique_of_same s _ hu (fun j => by
        rw [(setUpDataLooperThread_existing os handle looper s hex).1])
    · have hno : ∀ i, i < MAX_NUM_THREADS → (s.handle_looper_info i).hComm ≠ handle :=
        fun i hi e => hex ⟨i, hi, e⟩
      rw [setUpDataLooperThread_create os handle looper s hno]
      exact attach 1 0 handle looper hno
  | setUpEventLooperThread handle looper =>
    show HandlesUnique (setUpEventLooperThread os handle looper s).2
    by_cases hex : ∃ i, i < MAX_NUM_THREADS ∧ (s.handle_looper_info i).hComm = handle
    · exact HandlesUnique_of_same s _ hu (fun j => by
        rw [(setUpEventLooperThread_existing os handle looper s hex).1])
    · have hno : ∀ i, i < MAX_NUM_THREADS → (s.handle_looper_info i).hComm ≠ handle :=
        fun i hi e => hex ⟨i, hi, e⟩
      rw [setUpEventLooperThread_create os handle looper s hno]
      exact attach 0 1 handle looper hno
  | destroyDataLooperThread handle =>
    exact HandlesUnique_of_same s _ hu (destroy_frame os handle s).1.2.2.2
  | destroyEventLooperThread handle =>
    exact HandlesUnique_of_same s _ hu (destroy_frame os handle s).2.2.2.2

/-! ## C1: the first attach for a handle creates its entry -/

/-- C1: for a handle `h` that no slot of `handle_looper_info` holds and a registry with
`dtp_index < MAX_NUM_THREADS`, when the global reference, the wait event and the thread are all
created, `setUpDataLooperThread` returns `0`, stores at slot `dtp_index` an entry with
`hComm = h`, `data_enabled = 1`, `event_enabled = 0`, `thread_exit = 0` and the handle of the
new thread, leaves the other slots as they were and increments `dtp_index` by one;
`setUpEventLooperThread` does the same with `data_enabled = 0`, `event_enabled = 1`. -/
theorem C1_first_attach_creates_entry (os : OSResults) (h : HANDLE) (looper : jobject)
    (s : State)
    (hno : ∀ i, i < MAX_NUM_THREADS → (s.handle_looper_info i).hComm ≠ h)
    (_hidx : s.dtp_index < MAX_NUM_THREADS)
    (href : os.NewGlobalRef ≠ 0) (hev : os.CreateEvent ≠ 0) (hthr : os.beginthreadex ≠ 0) :
    ((setUpDataLooperThread os h looper s).1 = 0 ∧
      ((setUpDataLooperThread os h looper s).2.handle_looper_info s.dtp_index).hComm = h ∧
      ((setUpDataLooperThread os h looper s).2.handle_looper_info s.dtp_index).data_enabled = 1 ∧
      ((setUpDataLooperThread os h looper s).2.handle_looper_info s.dtp_index).event_enabled = 0 ∧
      ((setUpDataLooperThread os h looper s).2.handle_looper_info s.dtp_index).thread_exit = 0 ∧
      ((setUpDataLooperThread os h looper s).2.handle_looper_info s.dtp_index).thread_handle
        = os.beginthreadex ∧
      (∀ j, j ≠ s.dtp_index →
        (setUpDataLooperThread os h looper s).2.handle_looper_info j = s.handle_looper_info j) ∧
      (setUpDataLooperThread os h looper s).2.dtp_index = s.dtp_index + 1) ∧
    ((setUpEventLooperThread os h looper s).1 = 0 ∧
      ((setUpEventLooperThread os h looper s).2.handle_looper_info s.dtp_index).hComm = h ∧
      ((setUpEventLooperThread os h looper s).2.handle_looper_info s.dtp_index).data_enabled = 0 ∧
      ((setUpEventLooperThread os h looper s).2.handle_looper_info s.dtp_index).event_enabled = 1 ∧
      ((setUpEventLooperThread os h looper s).2.handle_looper_info s.dtp_index).thread_exit = 0 ∧
      ((setUpEventLooperThread os h looper s).2.handle_looper_info s.dtp_index).thread_handle
        = os.beginthreadex ∧
      (∀ j, j ≠ s.dtp_index →
        (setUpEventLooperThread os h looper s).2.handle_looper_info j = s.handle_looper_info j) ∧
      (setUpEventLooperThread os h looper s).2.dtp_index = s.dtp_index + 1) := by
  have hd : setUpDataLooperThread os h looper s = setupLooperThread os h looper 1 0 s := by
    simp [setUpDataLooperThread, lookup_not_found _ _ hno]
  have he : setUpEventLooperThread os h looper s = setupLooperThread os h looper 0 1 s := by
    simp [setUpEventLooperThread, lookup_not_found _ _ hno]
  rw [hd, he]
  obtain ⟨d1, d2, d3, _⟩ := setupLooperThread_success os h looper 1 0 s href hev hthr
  obtain ⟨e1, e2, e3, _⟩ := setupLooperThread_success os h looper 0 1 s href hev hthr
  rw [d3, e3]
  refine ⟨⟨d1, ?_, ?_, ?_, ?_, ?_, ?_, d2⟩, ⟨e1, ?_, ?_, ?_, ?_, ?_, ?_, e2⟩⟩ <;>
    first
      | (intro j hj; exact Function.update_noteq hj _ _)
      | simp

/-- C1 at a concrete input: handle `5` on the empty registry, every creating call succeeding. -/
theorem C1_first_attach_creates_entry_witness :
    (∀ i, i < MAX_NUM_THREADS → (empty_registry.handle_looper_info i).hComm ≠ 5) ∧
    empty_registry.dtp_index < MAX_NUM_THREADS ∧
    all_succeed.NewGlobalRef ≠ 0 ∧ all_succeed.CreateEvent ≠ 0 ∧ all_succeed.beginthreadex ≠ 0 ∧
    (setUpDataLooperThread all_succeed 5 9 empty_registry).1 = 0 ∧
    ((setUpDataLooperThread all_succeed 5 9 empty_registry).2.handle_looper_info
        empty_registry.dtp_index).hComm = 5 ∧
    (setUpDataLooperThread all_succeed 5 9 empty_registry).2.dtp_index
      = empty_registry.dtp_index + 1 :=
  have hno : ∀ i, i < MAX_NUM_THREADS → (empty_registry.handle_looper_info i).hComm ≠ 5 :=
    fun _ _ => by simp [empty_registry, zero_params]
  have hidx : empty_registry.dtp_index < MAX_NUM_THREADS := by
    simp [empty_registry, MAX_NUM_THREADS]
  have c := C1_first_attach_creates_entry all_succeed 5 9 empty_registry hno hidx
    (by decide) (by decide) (by decide)
  ⟨hno, hidx, by decide, by decide, by decide, c.1.1, c.1.2.1, c.1.2.2.2.2.2.2.2⟩

/-! ## C2: what the entry records after both kinds were attached -/

/-- C2, refuted as stated: on the empty registry attach a data listener and then an event
listener to handle `5`, every external call succeeding.  Slot `0` is the only slot holding
the handle, and it does not record both kinds: its `event_enabled` is still `0`. -/
theorem C2_entry_records_first_kind_only_counterexample :
    ((setUpEventLooperThread all_succeed 5 9
        (setUpDataLooperThread all_succeed 5 9 empty_registry).2).2.handle_looper_info 0).hComm
      = 5 ∧
    (∀ j, j ≠ 0 →
      ((setUpEventLooperThread all_succeed 5 9
        (setUpDataLooperThread all_succeed 5 9 empty_registry).2).2.handle_looper_info j).hComm
        ≠ 5) ∧
    ¬ (((setUpEventLooperThread all_succeed 5 9
          (setUpDataLooperThread all_succeed 5 9 empty_registry).2).2.handle_looper_info
            0).data_enabled = 1 ∧
       ((setUpEventLooperThread all_succeed 5 9
          (setUpDataLooperThread all_succeed 5 9 empty_registry).2).2.handle_looper_info
            0).event_enabled = 1) := by
  have hno : ∀ i, i < MAX_NUM_THREADS → (empty_registry.handle_looper_info i).hComm ≠ 5 :=
    fun _ _ => by simp [empty_registry, zero_params]
  have h1 := setUpDataLooperThread_create all_succeed 5 9 empty_registry hno
  obtain ⟨_, _, t1, _⟩ := setupLooperThread_success all_succeed 5 9 1 0 empty_registry
    (by decide) (by decide) (by decide)
  rw [← h1] at t1
  have hex : ∃ i, i < MAX_NUM_THREADS ∧
      ((setUpDataLooperThread all_succeed 5 9 empty_registry).2.handle_looper_info i).hComm
        = 5 := ⟨0, by simp [MAX_NUM_THREADS], by rw [t1]; simp [empty_registry]⟩
  obtain ⟨t2, _⟩ := setUpEventLooperThread_existing all_succeed 5 9 _ hex
  rw [t2, t1]
  refine ⟨by simp [empty_registry], ?_, by simp [empty_registry]⟩
  intro j hj
  simp [empty_registry, Function.update, hj, zero_params]

/-- C2, amended: after the two kinds of listener were attached to a handle `h` that had no
entry (either order, no detach in between, `dtp_index < MAX_NUM_THREADS`, the creating calls of
the first attach and `GetCommMask` / `SetCommMask` of the second succeeding), the entry of `h`
at slot `dtp_index` keeps the flags the first attach wrote (`1, 0` when the data listener came
first, `0, 1` when the event listener came first); the second attach records its kind in the
comm mask of the device, which becomes the previous mask or-ed with the bits of the second
kind. -/
theorem C2_second_attach_records_kind_in_comm_mask (os1 os2 : OSResults) (h : HANDLE)
    (looper1 looper2 : jobject) (s : State)
    (hno : ∀ i, i < MAX_NUM_THREADS → (s.handle_looper_info i).hComm ≠ h)
    (hidx : s.dtp_index < MAX_NUM_THREADS)
    (href : os1.NewGlobalRef ≠ 0) (hev : os1.CreateEvent ≠ 0) (hthr : os1.beginthreadex ≠ 0)
    (hget : os2.GetCommMask = true) (hset : os2.SetCommMask = true) :
    (((setUpEventLooperThread os2 h looper2
        (setUpDataLooperThread os1 h looper1 s).2).2.handle_looper_info s.dtp_index).hComm = h ∧
      ((setUpEventLooperThread os2 h looper2
        (setUpDataLooperThread os1 h looper1 s).2).2.handle_looper_info
          s.dtp_index).data_enabled = 1 ∧
      ((setUpEventLooperThread os2 h looper2
        (setUpDataLooperThread os1 h looper1 s).2).2.handle_looper_info
          s.dtp_index).event_enabled = 0 ∧
      (setUpEventLooperThread os2 h looper2 (setUpDataLooperThread os1 h looper1 s).2).2.comm_mask h
        = s.comm_mask h ||| EV_BREAK ||| EV_CTS ||| EV_DSR ||| EV_ERR ||| EV_RING ||| EV_RLSD
            ||| EV_RXFLAG) ∧
    (((setUpDataLooperThread os2 h looper2
        (setUpEventLooperThread os1 h looper1 s).2).2.handle_looper_info s.dtp_index).hComm = h ∧
      ((setUpDataLooperThread os2 h looper2
        (setUpEventLooperThread os1 h looper1 s).2).2.handle_looper_info
          s.dtp_index).data_enabled = 0 ∧
      ((setUpDataLooperThread os2 h looper2
        (setUpEventLooperThread os1 h looper1 s).2).2.handle_looper_info
          s.dtp_index).event_enabled = 1 ∧
      (setUpDataLooperThread os2 h looper2 (setUpEventLooperThread os1 h looper1 s).2).2.comm_mask h
        = s.comm_mask h ||| EV_RXCHAR) := by
  have hd := setUpDataLooperThread_create os1 h looper1 s hno
  have he := setUpEventLooperThread_create os1 h looper1 s hno
  obtain ⟨_, _, td, md⟩ := setupLooperThread_success os1 h looper1 1 0 s href hev hthr
  obtain ⟨_, _, te, me⟩ := setupLooperThread_success os1 h looper1 0 1 s href hev hthr
  rw [← hd] at td md
  rw [← he] at te me
  have hexd : ∃ i, i < MAX_NUM_THREADS ∧
      ((setUpDataLooperThread os1 h looper1 s).2.handle_looper_info i).hComm = h :=
    ⟨s.dtp_index, hidx, by rw [td]; simp⟩
  have hexe : ∃ i, i < MAX_NUM_THREADS ∧
      ((setUpEventLooperThread os1 h looper1 s).2.handle_looper_info i).hComm = h :=
    ⟨s.dtp_index, hidx, by rw [te]; simp⟩
  obtain ⟨a1, _, a3, _⟩ := setUpEventLooperThread_existing os2 h looper2 _ hexd
  obtain ⟨b1, _, b3, _⟩ := setUpDataLooperThread_existing os2 h looper2 _ hexe
  obtain ⟨_, a5⟩ := a3 hset
  obtain ⟨_, b5⟩ := b3 hset
  rw [a1, b1, td, te, a5, b5, md, me]
  simp [hget]

/-- C2 (amended) at a concrete input: handle `5` on the empty registry. -/
theorem C2_second_attach_records_kind_in_comm_mask_witness :
    (∀ i, i < MAX_NUM_THREADS → (empty_registry.handle_looper_info i).hComm ≠ 5) ∧
    empty_registry.dtp_index < MAX_NUM_THREADS ∧
    all_succeed.NewGlobalRef ≠ 0 ∧ all_succeed.CreateEvent ≠ 0 ∧ all_succeed.beginthreadex ≠ 0 ∧
    all_succeed.GetCommMask = true ∧ all_succeed.SetCommMask = true ∧
    ((setUpEventLooperThread all_succeed 5 9
        (setUpDataLooperThread all_succeed 5 9 empty_registry).2).2.handle_looper_info
          empty_registry.dtp_index).event_enabled = 0 ∧
    ((setUpDataLooperThread all_succeed 5 9
        (setUpEventLooperThread all_succeed 5 9 empty_registry).2).2.handle_looper_info
          empty_registry.dtp_index).data_enabled = 0 :=
  have hno : ∀ i, i < MAX_NUM_THREADS → (empty_registry.handle_looper_info i).hComm ≠ 5 :=
    fun _ _ => by simp [empty_registry, zero_params]
  have hidx : empty_registry.dtp_index < MAX_NUM_THREADS := by
    simp [empty_registry, MAX_NUM_THREADS]
  have c := C2_second_attach_records_kind_in_comm_mask all_succeed all_succeed 5 9 9
    empty_registry hno hidx (by decide) (by decide) (by decide) rfl rfl
  ⟨hno, hidx, by decide, by decide, by decide, rfl, rfl, c.1.2.2.1, c.2.2.1⟩

/-! ## C3, C4: detaching one of two listeners -/

/-- C3, the code at the failing input: handle `5` has both kinds attached (its slot `0` has
`thread_exit = 0`, its mask holds `EV_RXCHAR` and every line and error bit), yet detaching
either kind, with every external call succeeding, sets `thread_exit` of the entry to `1`:
the worker is asked to exit. -/
theorem C3_detach_one_of_two_requests_exit :
    (both_attached.handle_looper_info 0).hComm = 5 ∧
    (both_attached.handle_looper_info 0).thread_exit = 0 ∧
    both_attached.comm_mask 5 = 0x1FB ∧
    ((destroyDataLooperThread all_succeed 5 both_attached).2.handle_looper_info 0).thread_exit
      = 1 ∧
    ((destroyEventLooperThread all_succeed 5 both_attached).2.handle_looper_info 0).thread_exit
      = 1 := by
  have hslot : (both_attached.handle_looper_info 0).hComm = 5 := by simp [both_attached]
  have hfirst : ∀ j, j < 0 → (both_attached.handle_looper_info j).hComm ≠ 5 :=
    fun j hj => absurd hj (Nat.not_lt_zero j)
  have h0 : 0 < MAX_NUM_THREADS := by simp [MAX_NUM_THREADS]
  rw [destroyDataLooperThread_found all_succeed 5 both_attached 0 h0 hslot hfirst rfl,
    destroyEventLooperThread_found all_succeed 5 both_attached 0 h0 hslot hfirst]
  refine ⟨hslot, by simp [both_attached], ?_, by simp, by simp⟩
  simp [both_attached]
  decide

/-- C4, the code at the failing input: handle `5` has both kinds attached and its mask is
`0x1FB`.  Detaching the event listener does not leave the mask at `EV_RXCHAR`, and detaching
the data listener does not leave it at the line and error bits: neither call makes a
`SetCommMask` call, the mask stays `0x1FB`. -/
theorem C4_detach_one_of_two_keeps_mask :
    both_attached.comm_mask 5 = 0x1FB ∧
    (destroyEventLooperThread all_succeed 5 both_attached).2.comm_mask 5 = 0x1FB ∧
    (destroyEventLooperThread all_succeed 5 both_attached).2.comm_mask 5 ≠ EV_RXCHAR ∧
    (destroyDataLooperThread all_succeed 5 both_attached).2.comm_mask 5 = 0x1FB ∧
    (destroyDataLooperThread all_succeed 5 both_attached).2.comm_mask 5
      ≠ EV_BREAK ||| EV_CTS ||| EV_DSR ||| EV_ERR ||| EV_RING ||| EV_RLSD ||| EV_RXFLAG ∧
    (destroyEventLooperThread all_succeed 5 both_attached).2.calls
      = [OSCall.GetCommMask 5, OSCall.SetEvent 12] ∧
    (destroyDataLooperThread all_succeed 5 both_attached).2.calls
      = [OSCall.GetCommMask 5, OSCall.SetEvent 12] := by
  have hslot : (both_attached.handle_looper_info 0).hComm = 5 := by simp [both_attached]
  have hfirst : ∀ j, j < 0 → (both_attached.handle_looper_info j).hComm ≠ 5 :=
    fun j hj => absurd hj (Nat.not_lt_zero j)
  have h0 : 0 < MAX_NUM_THREADS := by simp [MAX_NUM_THREADS]
  have hm : both_attached.comm_mask 5 = 0x1FB := by
    simp [both_attached]
    decide
  rw [destroyDataLooperThread_found all_succeed 5 both_attached 0 h0 hslot hfirst rfl,
    destroyEventLooperThread_found all_succeed 5 both_attached 0 h0 hslot hfirst]
  simp only [hm]
  refine ⟨trivial, trivial, by decide, trivial, by decide, ?_, ?_⟩ <;> simp [both_attached]

/-! ## C5: detaching the only listener -/

/-- C5: when slot `i` is the slot of the table that holds `h` (the first one that does),
detaching with `destroyDataLooperThread` (`GetCommMask` succeeding) or with
`destroyEventLooperThread` returns `0`, changes slot `i` only by setting its `thread_exit` to
`1`, leaves every other slot and `dtp_index` unchanged, and makes exactly two external calls:
`GetCommMask` and `SetEvent` on the `wait_event_handles[0]` of slot `i`.  No call waits for
the worker.  This holds whatever the device mask is, so in particular when exactly one kind
of listener is attached. -/
theorem C5_last_detach_requests_exit (os : OSResults) (h : HANDLE) (s : State) (i : Nat)
    (hi : i < MAX_NUM_THREADS) (hslot : (s.handle_looper_info i).hComm = h)
    (hfirst : ∀ j, j < i → (s.handle_looper_info j).hComm ≠ h)
    (hget : os.GetCommMask = true) :
    ((destroyDataLooperThread os h s).1 = 0 ∧
      (destroyDataLooperThread os h s).2.handle_looper_info i
        = { (s.handle_looper_info i) with thread_exit := 1 } ∧
      (∀ j, j ≠ i →
        (destroyDataLooperThread os h s).2.handle_looper_info j = s.handle_looper_info j) ∧
      (destroyDataLooperThread os h s).2.dtp_index = s.dtp_index ∧
      (destroyDataLooperThread os h s).2.calls
        = s.calls ++ [OSCall.GetCommMask h,
            OSCall.SetEvent (s.handle_looper_info i).wait_event_handles_0]) ∧
    ((destroyEventLooperThread os h s).1 = 0 ∧
      (destroyEventLooperThread os h s).2.handle_looper_info i
        = { (s.handle_looper_info i) with thread_exit := 1 } ∧
      (∀ j, j ≠ i →
        (destroyEventLooperThread os h s).2.handle_looper_info j = s.handle_looper_info j) ∧
      (destroyEventLooperThread os h s).2.dtp_index = s.dtp_index ∧
      (destroyEventLooperThread os h s).2.calls
        = s.calls ++ [OSCall.GetCommMask h,
            OSCall.SetEvent (s.handle_looper_info i).wait_event_handles_0]) := by
  rw [destroyDataLooperThread_found os h s i hi hslot hfirst hget,
    destroyEventLooperThread_found os h s i hi hslot hfirst]
  refine ⟨⟨rfl, by simp, ?_, rfl, rfl⟩, ⟨rfl, by simp, ?_, rfl, rfl⟩⟩ <;>
    (intro j hj; exact Function.update_noteq hj _ _)

/-- C5 at a concrete input: the registry whose slot `0` holds handle `5`. -/
theorem C5_last_detach_requests_exit_witness :
    0 < MAX_NUM_THREADS ∧ (both_attached.handle_looper_info 0).hComm = 5 ∧
    (∀ j, j < 0 → (both_attached.handle_looper_info j).hComm ≠ 5) ∧
    all_succeed.GetCommMask = true ∧
    (destroyDataLooperThread all_succeed 5 both_attached).1 = 0 ∧
    (destroyDataLooperThread all_succeed 5 both_attached).2.handle_looper_info 0
      = { (both_attached.handle_looper_info 0) with thread_exit := 1 } :=
  have h0 : 0 < MAX_NUM_THREADS := by simp [MAX_NUM_THREADS]
  have hslot : (both_attached.handle_looper_info 0).hComm = 5 := by simp [both_attached]
  have hfirst : ∀ j, j < 0 → (both_attached.handle_looper_info j).hComm ≠ 5 :=
    fun j hj => absurd hj (Nat.not_lt_zero j)
  have c := C5_last_detach_requests_exit all_succeed 5 both_attached 0 h0 hslot hfirst rfl
  ⟨h0, hslot, hfirst, rfl, c.1.1, c.1.2.1⟩

/-! ## C6: detaching a kind that is not attached -/

/-- C6, refuted as stated.  Handle `5` has no entry in the empty registry, and in
`event_attached` it has only an event listener.  In neither state does
`destroyDataLooperThread 5` return a non-success value without changing the table: it
returns `0` in both, and in the second it sets `thread_exit` of the entry.  Likewise
`destroyEventLooperThread 5` returns `0` on the empty registry. -/
theorem C6_detach_absent_kind_counterexample :
    ¬ ((destroyDataLooperThread all_succeed 5 empty_registry).1 ≠ 0 ∧
        (destroyDataLooperThread all_succeed 5 empty_registry).2.handle_looper_info
          = empty_registry.handle_looper_info) ∧
    ¬ ((destroyEventLooperThread all_succeed 5 empty_registry).1 ≠ 0 ∧
        (destroyEventLooperThread all_succeed 5 empty_registry).2.handle_looper_info
          = empty_registry.handle_looper_info) ∧
    ¬ ((destroyDataLooperThread all_succeed 5 event_attached).1 ≠ 0 ∧
        (destroyDataLooperThread all_succeed 5 event_attached).2.handle_looper_info
          = event_attached.handle_looper_info) ∧
    (event_attached.handle_looper_info 0).thread_exit = 0 ∧
    ((destroyDataLooperThread all_succeed 5 event_attached).2.handle_looper_info 0).thread_exit
      = 1 := by
  have r1 := (destroy_frame all_succeed 5 empty_registry).1.1
  have r2 := (destroy_frame all_succeed 5 empty_registry).2.1
  have r3 := (destroy_frame all_succeed 5 event_attached).1.1
  have hslot : (event_attached.handle_looper_info 0).hComm = 5 := by simp [event_attached]
  have hfirst : ∀ j, j < 0 → (event_attached.handle_looper_info j).hComm ≠ 5 :=
    fun j hj => absurd hj (Nat.not_lt_zero j)
  have h0 : 0 < MAX_NUM_THREADS := by simp [MAX_NUM_THREADS]
  refine ⟨fun c => c.1 r1, fun c => c.1 r2, fun c => c.1 r3, by simp [event_attached], ?_⟩
  rw [destroyDataLooperThread_found all_succeed 5 event_attached 0 h0 hslot hfirst rfl]
  simp

/-- C6, amended: for every handle that no slot of the table holds, and whatever the results
of the external calls, `destroyDataLooperThread` and `destroyEventLooperThread` return `0`
(the code has no not-attached result) and leave the table, `dtp_index` and the device masks
unchanged. -/
theorem C6_detach_without_entry_changes_nothing (os : OSResults) (h : HANDLE) (s : State)
    (hno : ∀ i, i < MAX_NUM_THREADS → (s.handle_looper_info i).hComm ≠ h) :
    ((destroyDataLooperThread os h s).1 = 0 ∧
      (destroyDataLooperThread os h s).2.handle_looper_info = s.handle_looper_info ∧
      (destroyDataLooperThread os h s).2.dtp_index = s.dtp_index ∧
      (destroyDataLooperThread os h s).2.comm_mask = s.comm_mask) ∧
    ((destroyEventLooperThread os h s).1 = 0 ∧
      (destroyEventLooperThread os h s).2.handle_looper_info = s.handle_looper_info ∧
      (destroyEventLooperThread os h s).2.dtp_index = s.dtp_index ∧
      (destroyEventLooperThread os h s).2.comm_mask = s.comm_mask) := by
  rw [destroyEventLooperThread_not_found os h s hno]
  cases hget : os.GetCommMask
  · rw [destroyDataLooperThread_get_fails os h s hget]
    exact ⟨⟨rfl, rfl, rfl, rfl⟩, ⟨rfl, rfl, rfl, rfl⟩⟩
  · rw [destroyDataLooperThread_not_found os h s hno hget]
    exact ⟨⟨rfl, rfl, rfl, rfl⟩, ⟨rfl, rfl, rfl, rfl⟩⟩

/-- C6 (amended) at a concrete input: handle `5` on the empty registry. -/
theorem C6_detach_without_entry_changes_nothing_witness :
    (∀ i, i < MAX_NUM_THREADS → (empty_registry.handle_looper_info i).hComm ≠ 5) ∧
    (destroyDataLooperThread all_succeed 5 empty_registry).1 = 0 ∧
    (destroyDataLooperThread all_succeed 5 empty_registry).2.handle_looper_info
      = empty_registry.handle_looper_info ∧
    (destroyEventLooperThread all_succeed 5 empty_registry).1 = 0 :=
  have hno : ∀ i, i < MAX_NUM_THREADS → (empty_registry.handle_looper_info i).hComm ≠ 5 :=
    fun _ _ => by simp [empty_registry, zero_params]
  have c := C6_detach_without_entry_changes_nothing all_succeed 5 empty_registry hno
  ⟨hno, c.1.1, c.1.2.1, c.2.1⟩

/-! ## C7: attaching the same kind twice -/

/-- C8, the code at the failing input: the create path returns `0` (data listener attached to
handle `5` on the empty registry), but attaching the other kind to a handle that already has an
entry returns `-1` although every external call succeeds and the device mask has been extended
by the new kind: the event listener on `data_attached`, the data listener on
`event_attached`. -/
theorem C8_second_kind_attach_returns_minus_one :
    (setUpDataLooperThread all_succeed 5 9 empty_registry).1 = 0 ∧
    (setUpEventLooperThread all_succeed 5 9 data_attached).1 = -1 ∧
    (setUpEventLooperThread all_succeed 5 9 data_attached).2.comm_mask 5 = 0x1FB ∧
    (setUpDataLooperThread all_succeed 5 9 event_attached).1 = -1 ∧
    (setUpDataLooperThread all_succeed 5 9 event_attached).2.comm_mask 5 = 0x1FB := by
  have hno : ∀ i, i < MAX_NUM_THREADS → (empty_registry.handle_looper_info i).hComm ≠ 5 :=
    fun _ _ => by simp [empty_registry, zero_params]
  have hexd : ∃ i, i < MAX_NUM_THREADS ∧ (data_attached.handle_looper_info i).hComm = 5 :=
    ⟨0, by simp [MAX_NUM_THREADS], by simp [data_attached]⟩
  have hexe : ∃ i, i < MAX_NUM_THREADS ∧ (event_attached.handle_looper_info i).hComm = 5 :=
    ⟨0, by simp [MAX_NUM_THREADS], by simp [event_attached]⟩
  obtain ⟨a1, a2⟩ := (setUpEventLooperThread_existing all_succeed 5 9 data_attached hexd).2.2.1 rfl
  obtain ⟨b1, b2⟩ := (setUpDataLooperThread_existing all_succeed 5 9 event_attached hexe).2.2.1 rfl
  rw [setUpDataLooperThread_create all_succeed 5 9 empty_registry hno, a1, a2, b1, b2]
  refine ⟨(setupLooperThread_success all_succeed 5 9 1 0 empty_registry
    (by decide) (by decide) (by decide)).1, rfl, ?_, rfl, ?_⟩
  · simp [all_succeed, data_attached]
    decide
  · simp [all_succeed, event_attached]
    decide

/-! ## C9: attaching when the table is full -/

/-- C9, the code at the failing input: in `full_registry` (`dtp_index = 1024`, slot `i` holding
handle `i + 1`) handle `5000` has no entry.  Attaching a data listener to it, every external
call succeeding, returns `0`, writes the entry for `5000` at index `1024`, that is behind the
last slot of the table, and sets `dtp_index` to `1025`. -/
theorem C9_attach_at_capacity_writes_past_table :
    full_registry.dtp_index = 1024 ∧
    (setUpDataLooperThread all_succeed 5000 9 full_registry).1 = 0 ∧
    ((setUpDataLooperThread all_succeed 5000 9 full_registry).2.handle_looper_info 1024).hComm
      = 5000 ∧
    (full_registry.handle_looper_info 1024).hComm = 0 ∧
    (setUpDataLooperThread all_succeed 5000 9 full_registry).2.dtp_index = 1025 := by
  have hno : ∀ i, i < MAX_NUM_THREADS → (full_registry.handle_looper_info i).hComm ≠ 5000 := by
    intro i hi
    have hi2 : i < 1024 := hi
    have e : (full_registry.handle_looper_info i).hComm = i + 1 := by
      simp [full_registry, hi]
    rw [e]
    intro h5
    have h6 : (i : Nat) + 1 = 5000 := h5
    omega
  rw [setUpDataLooperThread_create all_succeed 5000 9 full_registry hno]
  obtain ⟨r1, r2, r3, _⟩ := setupLooperThread_success all_succeed 5000 9 1 0 full_registry
    (by decide) (by decide) (by decide)
  rw [r1, r2, r3]
  refine ⟨rfl, rfl, ?_, ?_, rfl⟩
  · show (Function.update full_registry.handle_looper_info MAX_NUM_THREADS _ 1024).hComm = 5000
    simp [MAX_NUM_THREADS]
  · simp [full_registry, MAX_NUM_THREADS, zero_params]

/-! ## C10: handles are unique in the table -/

/-- C10: in every state reached from the zero-initialised table with `dtp_index = 0` by a
finite sequence of attach and detach calls run one at a time (every external call free to
succeed or fail, each call made while `dtp_index < 1024`), no two slots of
`handle_looper_info` hold the same non-null device handle. -/
theorem C10_handles_unique (s : State) (hr : Reachable s) : HandlesUnique s := by
  induction hr with
  | init s hs =>
    intro i hi j _ _ hnz
    rw [hs.2.1 i hi] at hnz
    exact absurd rfl hnz
  | call s os c _ _ ih => exact HandlesUnique_run os c s ih

/-- C10 at a concrete input: the state after a data listener was attached to handle `5` on the
empty registry. -/
theorem C10_handles_unique_witness :
    Reachable ((NativeCall.setUpDataLooperThread 5 9).run all_succeed empty_registry).2 ∧
    HandlesUnique ((NativeCall.setUpDataLooperThread 5 9).run all_succeed empty_registry).2 :=
  have hr : Reachable ((NativeCall.setUpDataLooperThread 5 9).run all_succeed empty_registry).2 :=
    Reachable.call empty_registry all_succeed (NativeCall.setUpDataLooperThread 5 9)
      (Reachable.init empty_registry ⟨rfl, fun _ _ => rfl, rfl⟩)
      (by simp [empty_registry, MAX_NUM_THREADS])
  ⟨hr, C10_handles_unique _ hr⟩

/-! ## C11: the listener flags of the entries -/

/-- The slots after `setupLooperThread`: each one is as it was, or carries the two listener
flags of the call. -/
theorem setupLooperThread_flags (os : OSResults) (h : HANDLE) (looper : jobject)
    (d e : Int) (s : State) (j : Nat) :
    (setupLooperThread os h looper d e s).2.handle_looper_info j = s.handle_looper_info j ∨
    (((setupLooperThread os h looper d e s).2.handle_looper_info j).data_enabled = d ∧
     ((setupLooperThread os h looper d e s).2.handle_looper_info j).event_enabled = e) := by
  by_cases href : os.NewGlobalRef = 0
  · left; simp [setupLooperThread, href, State.log]
  · by_cases hev : os.CreateEvent = 0
    · left; simp [setupLooperThread, href, hev, State.log]
    · by_cases hj : j = s.dtp_index
      · right
        by_cases hthr : os.beginthreadex = 0 <;>
          simp [setupLooperThread, href, hev, hthr, State.log, Function.update, hj]
      · left
        by_cases hthr : os.beginthreadex = 0 <;>
          simp [setupLooperThread, href, hev, hthr, State.log, Function.update, hj]

/-- Neither detach entry point changes the handle or the listener flags of a slot. -/
theorem destroy_flags (os : OSResults) (h : HANDLE) (s : State) (j : Nat) :
    (((destroyDataLooperThread os h s).2.handle_looper_info j).hComm
        = (s.handle_looper_info j).hComm ∧
      ((destroyDataLooperThread os h s).2.handle_looper_info j).data_enabled
        = (s.handle_looper_info j).data_enabled ∧
      ((destroyDataLooperThread os h s).2.handle_looper_info j).event_enabled
        = (s.handle_looper_info j).event_enabled) ∧
    (((destroyEventLooperThread os h s).2.handle_looper_info j).hComm
        = (s.handle_looper_info j).hComm ∧
      ((destroyEventLooperThread os h s).2.handle_looper_info j).data_enabled
        = (s.handle_looper_info j).data_enabled ∧
      ((destroyEventLooperThread os h s).2.handle_looper_info j).event_enabled
        = (s.handle_looper_info j).event_enabled) := by
  by_cases hex : ∃ i, i < MAX_NUM_THREADS ∧ (s.handle_looper_info i).hComm = h
  · have hb := (lookup_exists_iff s.handle_looper_info h).2 hex
    obtain ⟨_, b, c, d⟩ := (lookup_from_spec s.handle_looper_info h MAX_NUM_THREADS 0).1 hb
    have hfirst : ∀ k, k < (lookup s.handle_looper_info h).1 →
        (s.handle_looper_info k).hComm ≠ h := fun k hk => d k (Nat.zero_le _) hk
    have hi : (lookup s.handle_looper_info h).1 < MAX_NUM_THREADS := by
      have b2 : (lookup s.handle_looper_info h).1 < 0 + MAX_NUM_THREADS := b
      omega
    rw [destroyEventLooperThread_found os h s _ hi c hfirst]
    cases hget : os.GetCommMask
    · rw [destroyDataLooperThread_get_fails os h s hget]
      by_cases hj : j = (lookup s.handle_looper_info h).1 <;> simp [Function.update, hj]
    · rw [destroyDataLooperThread_found os h s _ hi c hfirst hget]
      by_cases hj : j = (lookup s.handle_looper_info h).1 <;> simp [Function.update, hj]
  · have hno : ∀ i, i < MAX_NUM_THREADS → (s.handle_looper_info i).hComm ≠ h :=
      fun i hi e => hex ⟨i, hi, e⟩
    rw [destroyEventLooperThread_not_found os h s hno]
    cases hget : os.GetCommMask
    · rw [destroyDataLooperThread_get_fails os h s hget]
      simp
    · rw [destroyDataLooperThread_not_found os h s hno hget]
      simp

/-- Every attach and detach call made while `dtp_index < MAX_NUM_THREADS` keeps a listener
flag set in every slot that holds a handle. -/
theorem EntriesHaveListener_run (os : OSResults) (c : NativeCall) (s : State)
    (_hidx : s.dtp_index < MAX_NUM_THREADS)
    (hs : EntriesHaveListener s) : EntriesHaveListener (c.run os s).2 := by
  have create : ∀ (d e : Int) (handle : HANDLE) (looper : jobject), (d = 1 ∨ e = 1) →
      EntriesHaveListener (setupLooperThread os handle looper d e s).2 := by
    intro d e handle looper hde i hi hnz
    rcases setupLooperThread_flags os handle looper d e s i with hsame | ⟨hd, he⟩
    · rw [hsame] at hnz ⊢
      exact hs i hi hnz
    · rw [hd, he]
      exact hde
  cases c with
  | setUpDataLooperThread handle looper =>
    show EntriesHaveListener (setUpDataLooperThread os handle looper s).2
    by_cases hex : ∃ i, i < MAX_NUM_THREADS ∧ (s.handle_looper_info i).hComm = handle
    · intro i hi hnz
      rw [(setUpDataLooperThread_existing os handle looper s hex).1] at hnz ⊢
      exact hs i hi hnz
    · have hno : ∀ i, i < MAX_NUM_THREADS → (s.handle_looper_info i).hComm ≠ handle :=
        fun i hi e => hex ⟨i, hi, e⟩
      rw [setUpDataLooperThread_create os handle looper s hno]
      exact create 1 0 handle looper (Or.inl rfl)
  | setUpEventLooperThread handle looper =>
    show EntriesHaveListener (setUpEventLooperThread os handle looper s).2
    by_cases hex : ∃ i, i < MAX_NUM_THREADS ∧ (s.handle_looper_info i).hComm = handle
    · intro i hi hnz
      rw [(setUpEventLooperThread_existing os handle looper s hex).1] at hnz ⊢
      exact hs i hi hnz
    · have hno : ∀ i, i < MAX_NUM_THREADS → (s.handle_looper_info i).hComm ≠ handle :=
        fun i hi e => hex ⟨i, hi, e⟩
      rw [setUpEventLooperThread_create os handle looper s hno]
      exact create 0 1 handle looper (Or.inr rfl)
  | destroyDataLooperThread handle =>
    intro i hi hnz
    obtain ⟨a, b, c⟩ := (destroy_flags os handle s i).1
    show ((destroyDataLooperThread os handle s).2.handle_looper_info i).data_enabled = 1 ∨
      ((destroyDataLooperThread os handle s).2.handle_looper_info i).event_enabled = 1
    have hnz2 : ((destroyDataLooperThread os handle s).2.handle_looper_info i).hComm ≠ 0 := hnz
    rw [a] at hnz2
    rw [b, c]
    exact hs i hi hnz2
  | destroyEventLooperThread handle =>
    intro i hi hnz
    obtain ⟨a, b, c⟩ := (destroy_flags os handle s i).2
    show ((destroyEventLooperThread os handle s).2.handle_looper_info i).data_enabled = 1 ∨
      ((destroyEventLooperThread os handle s).2.handle_looper_info i).event_enabled = 1
    have hnz2 : ((destroyEventLooperThread os handle s).2.handle_looper_info i).hComm ≠ 0 := hnz
    rw [a] at hnz2
    rw [b, c]
    exact hs i hi hnz2

/-- C11, refuted as stated: the flags do not show that a listener is attached.  On the empty
registry a data listener is attached to handle `5` and then detached, every external call
succeeding and both calls returning `0`.  Handle `5` has no listener any more and its worker
has been told to exit (`thread_exit = 1`), yet its entry is still in the table: slot `0` holds
`hComm = 5`, with `data_enabled` still `1`. -/
theorem C11_detached_entry_stays_counterexample :
    (setUpDataLooperThread all_succeed 5 9 empty_registry).1 = 0 ∧
    (destroyDataLooperThread all_succeed 5
      (setUpDataLooperThread all_succeed 5 9 empty_registry).2).1 = 0 ∧
    ((destroyDataLooperThread all_succeed 5
      (setUpDataLooperThread all_succeed 5 9 empty_registry).2).2.handle_looper_info 0).hComm
      = 5 ∧
    ((destroyDataLooperThread all_succeed 5
      (setUpDataLooperThread all_succeed 5 9
        empty_registry).2).2.handle_looper_info 0).thread_exit = 1 ∧
    ((destroyDataLooperThread all_succeed 5
      (setUpDataLooperThread all_succeed 5 9
        empty_registry).2).2.handle_looper_info 0).data_enabled = 1 ∧
    ((destroyDataLooperThread all_succeed 5
      (setUpDataLooperThread all_succeed 5 9
        empty_registry).2).2.handle_looper_info 0).event_enabled = 0 := by
  have hno : ∀ i, i < MAX_NUM_THREADS → (empty_registry.handle_looper_info i).hComm ≠ 5 :=
    fun _ _ => by simp [empty_registry, zero_params]
  have hc := setUpDataLooperThread_create all_succeed 5 9 empty_registry hno
  obtain ⟨r1, _, r3, _⟩ := setupLooperThread_success all_succeed 5 9 1 0 empty_registry
    (by decide) (by decide) (by decide)
  rw [← hc] at r1 r3
  have h0 : 0 < MAX_NUM_THREADS := by simp [MAX_NUM_THREADS]
  have hslot :
      ((setUpDataLooperThread all_succeed 5 9 empty_registry).2.handle_looper_info 0).hComm
        = 5 := by
    rw [r3]; simp [empty_registry]
  have hfirst : ∀ j, j < 0 →
      ((setUpDataLooperThread all_succeed 5 9 empty_registry).2.handle_looper_info j).hComm
        ≠ 5 := fun j hj => absurd hj (Nat.not_lt_zero j)
  rw [destroyDataLooperThread_found all_succeed 5
    (setUpDataLooperThread all_succeed 5 9 empty_registry).2 0 h0 hslot hfirst rfl]
  have hd :
      ((setUpDataLooperThread all_succeed 5 9 empty_registry).2.handle_looper_info
        0).data_enabled = 1 := by
    rw [r3]; simp [empty_registry]
  have he :
      ((setUpDataLooperThread all_succeed 5 9 empty_registry).2.handle_looper_info
        0).event_enabled = 0 := by
    rw [r3]; simp [empty_registry]
  refine ⟨r1, rfl, ?_, ?_, ?_, ?_⟩
  · simpa using hslot
  · simp
  · simpa using hd
  · simpa using he

/-- C11, amended: in every state reached from the zero-initialised table with `dtp_index = 0`
by attach and detach calls run one at a time (every external call free to succeed or fail,
each call made while `dtp_index < 1024`), every slot of `handle_looper_info` that holds a
non-null handle has `data_enabled = 1` or `event_enabled = 1`.  These flags are the ones the
creating attach wrote: a detach changes neither them nor the `hComm` of any slot, so they do
not tell whether a listener is still attached. -/
theorem C11_entries_keep_creation_flags (s : State) (hr : Reachable s) :
    EntriesHaveListener s ∧
    (∀ (os : OSResults) (h : HANDLE) (j : Nat),
      (((destroyDataLooperThread os h s).2.handle_looper_info j).hComm
          = (s.handle_looper_info j).hComm ∧
        ((destroyDataLooperThread os h s).2.handle_looper_info j).data_enabled
          = (s.handle_looper_info j).data_enabled ∧
        ((destroyDataLooperThread os h s).2.handle_looper_info j).event_enabled
          = (s.handle_looper_info j).event_enabled) ∧
      (((destroyEventLooperThread os h s).2.handle_looper_info j).hComm
          = (s.handle_looper_info j).hComm ∧
        ((destroyEventLooperThread os h s).2.handle_looper_info j).data_enabled
          = (s.handle_looper_info j).data_enabled ∧
        ((destroyEventLooperThread os h s).2.handle_looper_info j).event_enabled
          = (s.handle_looper_info j).event_enabled)) := by
  refine ⟨?_, fun os h j => destroy_flags os h s j⟩
  induction hr with
  | init s hs =>
    intro i hi hnz
    rw [hs.2.1 i hi] at hnz
    exact absurd rfl hnz
  | call s os c _ hidx ih => exact EntriesHaveListener_run os c s hidx ih

/-- C11 (amended) at a concrete input: the state after a data listener was attached to handle
`5` on the empty registry and detached again. -/
theorem C11_entries_keep_creation_flags_witness :
    Reachable ((NativeCall.destroyDataLooperThread 5).run all_succeed
      ((NativeCall.setUpDataLooperThread 5 9).run all_succeed empty_registry).2).2 ∧
    EntriesHaveListener ((NativeCall.destroyDataLooperThread 5).run all_succeed
      ((NativeCall.setUpDataLooperThread 5 9).run all_succeed empty_registry).2).2 :=
  have hno : ∀ i, i < MAX_NUM_THREADS → (empty_registry.handle_looper_info i).hComm ≠ 5 :=
    fun _ _ => by simp [empty_registry, zero_params]
  have hr1 : Reachable ((NativeCall.setUpDataLooperThread 5 9).run all_succeed empty_registry).2 :=
    Reachable.call empty_registry all_succeed (NativeCall.setUpDataLooperThread 5 9)
      (Reachable.init empty_registry ⟨rfl, fun _ _ => rfl, rfl⟩)
      (by simp [empty_registry, MAX_NUM_THREADS])
  have hidx : ((NativeCall.setUpDataLooperThread 5 9).run all_succeed empty_registry).2.dtp_index
      < MAX_NUM_THREADS := by
    simp only [NativeCall.run]
    rw [setUpDataLooperThread_create all_succeed 5 9 empty_registry hno,
      (setupLooperThread_success all_succeed 5 9 1 0 empty_registry
        (by decide) (by decide) (by decide)).2.1]
    simp [empty_registry, MAX_NUM_THREADS]
  have hr2 := Reachable.call _ all_succeed (NativeCall.destroyDataLooperThread 5) hr1 hidx
  ⟨hr2, (C11_entries_keep_creation_flags _ hr2).1⟩

/-! ## C12: failures on the create path -/

/-- When `CreateEvent` fails, `setupLooperThread` returns `-240` before it writes the table. -/
theorem setupLooperThread_event_fails (os : OSResults) (h : HANDLE) (looper : jobject)
    (d e : Int) (s : State) (href : os.NewGlobalRef ≠ 0) (hev : os.CreateEvent = 0) :
    (setupLooperThread os h looper d e s).1 = -240 ∧
    (setupLooperThread os h looper d e s).2.handle_looper_info = s.handle_looper_info ∧
    (setupLooperThread os h looper d e s).2.dtp_index = s.dtp_index := by
  simp [setupLooperThread, href, hev, State.log]

/-- When `_beginthreadex` fails, `setupLooperThread` returns `-240` after it has copied
`params` into slot `dtp_index`; `dtp_index` is not incremented. -/
theorem setupLooperThread_thread_fails (os : OSResults) (h : HANDLE) (looper : jobject)
    (d e : Int) (s : State) (href : os.NewGlobalRef ≠ 0) (hev : os.CreateEvent ≠ 0)
    (hthr : os.beginthreadex = 0) :
    (setupLooperThread os h looper d e s).1 = -240 ∧
    (setupLooperThread os h looper d e s).2.handle_looper_info =
      Function.update s.handle_looper_info s.dtp_index
        { jvm := s.jvm, hComm := h, looper := os.NewGlobalRef, data_enabled := d,
          event_enabled := e, thread_exit := 0, csmutex := true,
          wait_event_handles_0 := os.CreateEvent, wait_event_handles_1 := 0,
          thread_handle := os.uninit_thread_handle } ∧
    (setupLooperThread os h looper d e s).2.dtp_index = s.dtp_index ∧
    (setupLooperThread os h looper d e s).2.calls =
      s.calls ++ [OSCall.EnterCriticalSection, OSCall.NewGlobalRef looper, OSCall.CreateEvent,
        OSCall.beginthreadex s.dtp_index] := by
  simp [setupLooperThread, href, hev, hthr, State.log]

/-- C12, the code at the failing input: on the empty registry the first attach for handle `5`
creates the global reference and the event, but `_beginthreadex` fails.  The call returns
`-240` and leaves a partial entry: slot `0`, which held no handle, now holds handle `5`
(`dtp_index` is still `0`).  A later lookup for `5` stops at that slot, so a retry with every
external call succeeding does not take the create path: it returns `-1` and starts no
thread. -/
theorem C12_thread_failure_leaves_partial_entry :
    (setUpDataLooperThread thread_fails 5 9 empty_registry).1 = -240 ∧
    (empty_registry.handle_looper_info 0).hComm = 0 ∧
    ((setUpDataLooperThread thread_fails 5 9 empty_registry).2.handle_looper_info 0).hComm = 5 ∧
    (setUpDataLooperThread thread_fails 5 9 empty_registry).2.dtp_index = 0 ∧
    lookup (setUpDataLooperThread thread_fails 5 9 empty_registry).2.handle_looper_info 5
      = (0, true) ∧
    (setUpDataLooperThread all_succeed 5 9
      (setUpDataLooperThread thread_fails 5 9 empty_registry).2).1 = -1 ∧
    (setUpDataLooperThread all_succeed 5 9
      (setUpDataLooperThread thread_fails 5 9 empty_registry).2).2.dtp_index = 0 := by
  have hno : ∀ i, i < MAX_NUM_THREADS → (empty_registry.handle_looper_info i).hComm ≠ 5 :=
    fun _ _ => by simp [empty_registry, zero_params]
  have hc := setUpDataLooperThread_create thread_fails 5 9 empty_registry hno
  obtain ⟨r1, r2, r3, _⟩ := setupLooperThread_thread_fails thread_fails 5 9 1 0 empty_registry
    (by decide) (by decide) rfl
  rw [← hc] at r1 r2 r3
  have hslot :
      ((setUpDataLooperThread thread_fails 5 9 empty_registry).2.handle_looper_info 0).hComm
        = 5 := by
    rw [r2]; simp [empty_registry]
  have h0 : 0 < MAX_NUM_THREADS := by simp [MAX_NUM_THREADS]
  have hfirst : ∀ j, j < 0 →
      ((setUpDataLooperThread thread_fails 5 9 empty_registry).2.handle_looper_info j).hComm
        ≠ 5 := fun j hj => absurd hj (Nat.not_lt_zero j)
  obtain ⟨_, e2, e3, _⟩ := setUpDataLooperThread_existing all_succeed 5 9
    (setUpDataLooperThread thread_fails 5 9 empty_registry).2 ⟨0, h0, hslot⟩
  refine ⟨r1, by simp [empty_registry, zero_params], hslot, r3,
    lookup_found _ _ 0 h0 hslot hfirst, (e3 rfl).1, ?_⟩
  rw [e2, r3]
  rfl

/-! ## C13: attaching to a handle that has an entry -/

/-- C13: when a slot of the table holds `h`, `setUpDataLooperThread` and
`setUpEventLooperThread` leave every slot of `handle_looper_info` (so also every recorded
`thread_handle`) and `dtp_index` unchanged, whatever the external calls return.  The only
external calls they make are `GetCommMask`, `SetCommMask` and, when `SetCommMask` fails,
`ClearCommError`: no thread is started. -/
theorem C13_attach_to_existing_entry_frame (os : OSResults) (h : HANDLE) (looper : jobject)
    (s : State) (hex : ∃ i, i < MAX_NUM_THREADS ∧ (s.handle_looper_info i).hComm = h) :
    ((setUpDataLooperThread os h looper s).2.handle_looper_info = s.handle_looper_info ∧
      (setUpDataLooperThread os h looper s).2.dtp_index = s.dtp_index ∧
      (setUpDataLooperThread os h looper s).2.calls =
        s.calls ++ [OSCall.GetCommMask h,
          OSCall.SetCommMask h
            ((if os.GetCommMask then s.comm_mask h else os.uninit_event_mask) ||| EV_RXCHAR)]
          ++ (if os.SetCommMask then [] else [OSCall.ClearCommError h])) ∧
    ((setUpEventLooperThread os h looper s).2.handle_looper_info = s.handle_looper_info ∧
      (setUpEventLooperThread os h looper s).2.dtp_index = s.dtp_index ∧
      (setUpEventLooperThread os h looper s).2.calls =
        s.calls ++ [OSCall.GetCommMask h,
          OSCall.SetCommMask h
            ((if os.GetCommMask then s.comm_mask h else os.uninit_event_mask)
              ||| EV_BREAK ||| EV_CTS ||| EV_DSR ||| EV_ERR ||| EV_RING ||| EV_RLSD
              ||| EV_RXFLAG)]
          ++ (if os.SetCommMask then [] else [OSCall.ClearCommError h])) := by
  have hb := (lookup_exists_iff s.handle_looper_info h).2 hex
  obtain ⟨d1, d2, _⟩ := setUpDataLooperThread_existing os h looper s hex
  obtain ⟨e1, e2, _⟩ := setUpEventLooperThread_existing os h looper s hex
  refine ⟨⟨d1, d2, ?_⟩, ⟨e1, e2, ?_⟩⟩
  · cases hs : os.SetCommMask <;> simp [setUpDataLooperThread, hb, hs, State.log]
  · cases hs : os.SetCommMask <;> simp [setUpEventLooperThread, hb, hs, State.log]

/-- C13 at a concrete input: a second kind attached to handle `5` of `data_attached`. -/
theorem C13_attach_to_existing_entry_frame_witness :
    (∃ i, i < MAX_NUM_THREADS ∧ (data_attached.handle_looper_info i).hComm = 5) ∧
    (setUpEventLooperThread all_succeed 5 9 data_attached).2.handle_looper_info
      = data_attached.handle_looper_info ∧
    (setUpEventLooperThread all_succeed 5 9 data_attached).2.dtp_index
      = data_attached.dtp_index ∧
    (setUpDataLooperThread all_succeed 5 9 data_attached).2.handle_looper_info
      = data_attached.handle_looper_info :=
  have hex : ∃ i, i < MAX_NUM_THREADS ∧ (data_attached.handle_looper_info i).hComm = 5 :=
    ⟨0, by simp [MAX_NUM_THREADS], by simp [data_attached]⟩
  have c := C13_attach_to_existing_entry_frame all_succeed 5 9 data_attached hex
  ⟨hex, c.2.1, c.2.2.1, c.1.1⟩

/-! ## C14: two attach calls from different threads -/

/-- The split of `setUpDataLooperThread` into its lookup loop and the statements after it is
the function itself. -/
theorem setUpDataLooperThread_eq_after_lookup (os : OSResults) (h : HANDLE) (looper : jobject)
    (s : State) :
    setUpDataLooperThread os h looper s =
      setUpDataLooperThread_after_lookup os h looper (lookup s.handle_looper_info h).2 s := rfl

/-- C14, the code at the failing input: two threads attach a data listener to handle `5`, which
has no entry in the empty registry, and both run their lookup loop before either goes on (the
loop is executed before `setupLooperThread` enters the critical section).  Every external call
succeeds.  Both calls take the create path and return `0`; the table ends with two entries for
handle `5`, in slots `0` and `1`, and two threads have been started. -/
theorem C14_lookup_outside_critical_section :
    (two_attaches_lookup_first all_succeed all_succeed 5 9 9 empty_registry).1 = (0, 0) ∧
    ((two_attaches_lookup_first all_succeed all_succeed 5 9 9
        empty_registry).2.handle_looper_info 0).hComm = 5 ∧
    ((two_attaches_lookup_first all_succeed all_succeed 5 9 9
        empty_registry).2.handle_looper_info 1).hComm = 5 ∧
    (two_attaches_lookup_first all_succeed all_succeed 5 9 9 empty_registry).2.dtp_index = 2 ∧
    ¬ HandlesUnique (two_attaches_lookup_first all_succeed all_succeed 5 9 9 empty_registry).2 := by
  have hno : ∀ i, i < MAX_NUM_THREADS → (empty_registry.handle_looper_info i).hComm ≠ 5 :=
    fun _ _ => by simp [empty_registry, zero_params]
  have hl := lookup_not_found _ _ hno
  obtain ⟨a1, a2, a3, _⟩ := setupLooperThread_success all_succeed 5 9 1 0 empty_registry
    (by decide) (by decide) (by decide)
  obtain ⟨b1, b2, b3, _⟩ := setupLooperThread_success all_succeed 5 9 1 0
    (setupLooperThread all_succeed 5 9 1 0 empty_registry).2 (by decide) (by decide) (by decide)
  have e : two_attaches_lookup_first all_succeed all_succeed 5 9 9 empty_registry =
      (((setupLooperThread all_succeed 5 9 1 0 empty_registry).1,
        (setupLooperThread all_succeed 5 9 1 0
          (setupLooperThread all_succeed 5 9 1 0 empty_registry).2).1),
       (setupLooperThread all_succeed 5 9 1 0
          (setupLooperThread all_succeed 5 9 1 0 empty_registry).2).2) := by
    simp [two_attaches_lookup_first, setUpDataLooperThread_after_lookup, hl]
  rw [e]
  have s0 : ((setupLooperThread all_succeed 5 9 1 0
      (setupLooperThread all_succeed 5 9 1 0 empty_registry).2).2.handle_looper_info 0).hComm
      = 5 := by
    rw [b3, a2, a3]; simp [empty_registry]
  have s1 : ((setupLooperThread all_succeed 5 9 1 0
      (setupLooperThread all_succeed 5 9 1 0 empty_registry).2).2.handle_looper_info 1).hComm
      = 5 := by
    rw [b3, a2, a3]; simp [empty_registry]
  refine ⟨by rw [a1, b1], s0, s1, by rw [b2, a2]; rfl, ?_⟩
  intro hu
  have hne := hu 0 (by simp [MAX_NUM_THREADS]) 1 (by simp [MAX_NUM_THREADS]) (by decide)
    (by rw [s0]; decide)
  rw [s0, s1] at hne
  exact hne rfl

/-! ## C15: closing a port that has a listener -/

/-- C15, refuted as stated: handle `5` has an entry in `data_attached` (slot `0`), yet
`closeComPort 5`, with `FlushFileBuffers` and `CloseHandle` succeeding, does not return a
non-success value and leave the handle open: it returns `0` and has called `CloseHandle` on
the handle. -/
theorem C15_close_with_listener_counterexample :
    (data_attached.handle_looper_info 0).hComm = 5 ∧
    ¬ ((closeComPort true true 5 data_attached).1 ≠ 0 ∧
        OSCall.CloseHandle 5 ∉ (closeComPort true true 5 data_attached).2.calls) := by
  refine ⟨by simp [data_attached], ?_⟩
  rintro ⟨hret, _⟩
  exact hret rfl

/-- C15, amended: `closeComPort` does not consult the listener registry.  For every handle,
with or without an entry, it calls `FlushFileBuffers` and then `CloseHandle` on the handle,
returns `0` when `CloseHandle` succeeds and `-240` when it fails, and leaves the table and
`dtp_index` unchanged. -/
theorem C15_close_ignores_registry (flush_ok close_ok : Bool) (h : HANDLE) (s : State) :
    (closeComPort flush_ok close_ok h s).1 = (if close_ok then 0 else -240) ∧
    (closeComPort flush_ok close_ok h s).2.calls
      = s.calls ++ [OSCall.FlushFileBuffers h, OSCall.CloseHandle h] ∧
    (closeComPort flush_ok close_ok h s).2.handle_looper_info = s.handle_looper_info ∧
    (closeComPort flush_ok close_ok h s).2.dtp_index = s.dtp_index := by
  cases close_ok <;> simp [closeComPort, State.log]

/-! ## C16: the modem line status -/

/-- The test `(modem_stat & bit) ? 1 : 0` of one status bit: the masked value is not zero
exactly when that bit of the word is set. -/
theorem land_two_pow_ne_zero_iff (m k : Nat) : m &&& 2 ^ k ≠ 0 ↔ m.testBit k = true := by
  rw [Nat.and_two_pow]
  cases hb : m.testBit k
  · simp
  · simp

/-- C16: for every modem status word `m` that `GetCommModemStatus` returns,
`getLinesStatus` returns the eight integers `[0, cts, dsr, dcd, ri, 0, 0, 0]`, where `cts`,
`dsr`, `dcd` and `ri` are `1` when the bit `MS_CTS_ON` (bit 4), `MS_DSR_ON` (bit 5),
`MS_RLSD_ON` (bit 7), `MS_RING_ON` (bit 6) of `m` is set and `0` otherwise; when the query
fails it returns `[-240, 0, 0, 0, 0, 0, 0, 0]`. -/
theorem C16_getLinesStatus (m : DWORD) :
    (MS_CTS_ON = 2 ^ 4 ∧ MS_DSR_ON = 2 ^ 5 ∧ MS_RLSD_ON = 2 ^ 7 ∧ MS_RING_ON = 2 ^ 6) ∧
    getLinesStatus (some m) =
      [0,
       if m.testBit 4 then 1 else 0,
       if m.testBit 5 then 1 else 0,
       if m.testBit 7 then 1 else 0,
       if m.testBit 6 then 1 else 0,
       0, 0, 0] ∧
    (getLinesStatus (some m)).length = 8 ∧
    getLinesStatus none = [-240, 0, 0, 0, 0, 0, 0, 0] := by
  have hc : MS_CTS_ON = 2 ^ 4 := by decide
  have hd : MS_DSR_ON = 2 ^ 5 := by decide
  have hr : MS_RLSD_ON = 2 ^ 7 := by decide
  have hg : MS_RING_ON = 2 ^ 6 := by decide
  refine ⟨⟨hc, hd, hr, hg⟩, ?_, rfl, rfl⟩
  simp only [getLinesStatus, hc, hd, hr, hg, land_two_pow_ne_zero_iff]

/-! ## C17: the queue lengths -/

/-- The cast `(jint)` keeps the 32 bits of the `DWORD`: the result lies in the range of a
`jint` and is congruent to the `DWORD` modulo `2 ^ 32`. -/
theorem to_jint_spec (n : DWORD) :
    -2147483648 ≤ to_jint n ∧ to_jint n < 2147483648 ∧
    to_jint n % 4294967296 = ((n % 4294967296 : Nat) : Int) := by
  have key : ∀ k : Nat, k < 4294967296 →
      (-2147483648 ≤ (if k < 2147483648 then (k : Int) else (k : Int) - 4294967296) ∧
        (if k < 2147483648 then (k : Int) else (k : Int) - 4294967296) < 2147483648 ∧
        (if k < 2147483648 then (k : Int) else (k : Int) - 4294967296) % 4294967296
          = (k : Int)) := by
    intro k hk
    split <;> omega
  exact key (n % 4294967296) (Nat.mod_lt _ (by norm_num))

/-- C17: `getByteCount` returns three integers, in the order error number, input count,
output count: `[0, (jint)cbInQue, (jint)cbOutQue]` when `ClearCommError` succeeds, each count
being the 32 bit queue length read as a signed `jint` (in the range of a `jint`, congruent to
the queue length modulo `2 ^ 32`), and `[-240, 0, 0]` when it fails. -/
theorem C17_getByteCount (cbInQue cbOutQue : DWORD) :
    getByteCount true cbInQue cbOutQue = [0, to_jint cbInQue, to_jint cbOutQue] ∧
    (-2147483648 ≤ to_jint cbInQue ∧ to_jint cbInQue < 2147483648 ∧
      to_jint cbInQue % 4294967296 = ((cbInQue % 4294967296 : Nat) : Int)) ∧
    (-2147483648 ≤ to_jint cbOutQue ∧ to_jint cbOutQue < 2147483648 ∧
      to_jint cbOutQue % 4294967296 = ((cbOutQue % 4294967296 : Nat) : Int)) ∧
    getByteCount false cbInQue cbOutQue = [-240, 0, 0] :=
  ⟨rfl, to_jint_spec cbInQue, to_jint_spec cbOutQue, rfl⟩

/-! ## C18: the interrupt counters -/

/-- C18, the code at the failing input: for every content of the memory behind `count_info`
the returned array has `sizeof(count_info) = 48` elements, not `12`; the elements from index
`12` on are copied from behind the local, so with the value `7` lying there the array holds
`7`, not `0`, at index `12`. -/
theorem C18_getInterruptCount_length_is_sizeof :
    (∀ after_count_info : Nat → Int, (getInterruptCount after_count_info).length = 48) ∧
    (getInterruptCount (fun _ => 7)).length ≠ 12 ∧
    (getInterruptCount (fun _ => 7))[11]? = some 0 ∧
    (getInterruptCount (fun _ => 7))[12]? = some 7 := by
  refine ⟨fun a => by simp [getInterruptCount, sizeof_jint], by decide, by decide, by decide⟩

/-! ## C19: flow control -/

/-- C19, the code at the failing input: the device control block has no flow control
(`zero_DCB`), `configureComPortControl` is called with `flowctrl = 2` and `GetCommState`
succeeds.  The call returns `0`, but the control block of the device is what it was:
`fOutxCtsFlow` is still `FALSE` and `fRtsControl` still `RTS_CONTROL_DISABLE`.  The fields of
the mode are only in the local `dcb`, which is never passed to `SetCommState`.  For every
input the control block of the device after the call is the one before it. -/
theorem C19_configureComPortControl_never_applies :
    (configureComPortControl true 2 17 19 false false zero_DCB).ret = 0 ∧
    (configureComPortControl true 2 17 19 false false zero_DCB).device.fOutxCtsFlow = false ∧
    (configureComPortControl true 2 17 19 false false zero_DCB).device.fRtsControl
      = RTS_CONTROL_DISABLE ∧
    (configureComPortControl true 2 17 19 false false zero_DCB).dcb.fOutxCtsFlow = true ∧
    (configureComPortControl true 2 17 19 false false zero_DCB).dcb.fRtsControl
      = RTS_CONTROL_HANDSHAKE ∧
    (configureComPortControl true 3 17 19 false false zero_DCB).ret = 0 ∧
    (configureComPortControl true 3 17 19 false false zero_DCB).device.fOutX = false ∧
    (∀ (get_ok : Bool) (flowctrl : Int) (xon xoff : Nat) (p o : Bool) (device : DCB),
      (configureComPortControl get_ok flowctrl xon xoff p o device).device = device) := by
  refine ⟨by decide, by decide, by decide, by decide, by decide, by decide, by decide, ?_⟩
  intro get_ok flowctrl xon xoff p o device
  cases get_ok <;> simp [configureComPortControl]

/-! ## C20: the baud rate -/

/-- On a case label the switch stores the label itself, and `251` is not a case label. -/
theorem switch_baud_on_label :
    ∀ b ∈ switch_case_labels, ((switch_baud b : Nat) : Int) = b ∧ b ≠ 251 := by
  decide

/-- Off the case labels the switch leaves `baud` at its initial value `(DWORD)-1`. -/
theorem switch_baud_default (b : Int) (hb : b ∉ switch_case_labels) :
    switch_baud b = 4294967295 := by
  simp only [switch_case_labels, List.mem_cons, List.mem_singleton, List.not_mem_nil,
    or_false, not_or] at hb
  simp [switch_baud, hb, to_DWORD]

/-- The stop bits block does not touch the baud rate. -/
theorem set_stop_bits_BaudRate (stopBits : Int) (dcb : DCB) :
    (set_stop_bits stopBits dcb).BaudRate = dcb.BaudRate := by
  unfold set_stop_bits
  split_ifs <;> rfl

/-- The parity block does not touch the baud rate. -/
theorem set_parity_BaudRate (parity : Int) (dcb : DCB) :
    (set_parity parity dcb).BaudRate = dcb.BaudRate := by
  unfold set_parity
  dsimp only
  split_ifs <;> rfl

/-- The value of `baud` is what `configureComPortData` stores in `dcb.BaudRate` and passes to
`SetCommState`; when that call succeeds it is the baud rate of the device. -/
theorem configureComPortData_BaudRate (set_ok : Bool) (errorVal : DWORD)
    (dataBits stopBits parity b cust : Int) (device : DCB) :
    (configureComPortData true set_ok errorVal dataBits stopBits parity b cust device).dcb.BaudRate
      = (if b = 251 then to_DWORD cust else switch_baud b) ∧
    (set_ok = true →
      (configureComPortData true set_ok errorVal dataBits stopBits parity b cust device).device
        = (configureComPortData true set_ok errorVal dataBits stopBits parity b cust
            device).dcb) := by
  constructor
  · cases set_ok
    · by_cases he : errorVal = ERROR_INVALID_PARAMETER <;>
        simp [configureComPortData, he, set_parity_BaudRate, set_stop_bits_BaudRate]
    · simp [configureComPortData, set_parity_BaudRate, set_stop_bits_BaudRate]
  · intro hs
    subst hs
    simp [configureComPortData]

/-- C20: when `GetCommState` succeeds, the baud rate `configureComPortData` writes to the
`DCB` it passes to `SetCommState` is: `custBaudTranslated`, converted to a `DWORD`, when
`baudRateTranslated = 251` (so `custBaudTranslated` itself when it is not negative);
`baudRateTranslated` itself when it is one of the case labels of the switch; and
`(DWORD)-1 = 4294967295` for every other value.  When `SetCommState` succeeds this is the baud
rate of the device. -/
theorem C20_baud_rate_written (set_ok : Bool) (errorVal : DWORD)
    (dataBits stopBits parity baudRateTranslated custBaudTranslated : Int) (device : DCB) :
    (baudRateTranslated = 251 →
      (((configureComPortData true set_ok errorVal dataBits stopBits parity baudRateTranslated
          custBaudTranslated device).dcb.BaudRate : Nat) : Int)
        = custBaudTranslated % 4294967296 ∧
      (0 ≤ custBaudTranslated → custBaudTranslated < 4294967296 →
        (((configureComPortData true set_ok errorVal dataBits stopBits parity baudRateTranslated
            custBaudTranslated device).dcb.BaudRate : Nat) : Int) = custBaudTranslated)) ∧
    (baudRateTranslated ∈ switch_case_labels →
      (((configureComPortData true set_ok errorVal dataBits stopBits parity baudRateTranslated
          custBaudTranslated device).dcb.BaudRate : Nat) : Int) = baudRateTranslated) ∧
    (baudRateTranslated ≠ 251 → baudRateTranslated ∉ switch_case_labels →
      (configureComPortData true set_ok errorVal dataBits stopBits parity baudRateTranslated
          custBaudTranslated device).dcb.BaudRate = 4294967295) ∧
    (set_ok = true →
      (configureComPortData true set_ok errorVal dataBits stopBits parity baudRateTranslated
          custBaudTranslated device).device.BaudRate
        = (configureComPortData true set_ok errorVal dataBits stopBits parity baudRateTranslated
          custBaudTranslated device).dcb.BaudRate) := by
  obtain ⟨hb, hdev⟩ := configureComPortData_BaudRate set_ok errorVal dataBits stopBits parity
    baudRateTranslated custBaudTranslated device
  refine ⟨fun h251 => ?_, fun hmem => ?_, fun hne hnot => ?_, fun hs => by rw [hdev hs]⟩
  · have e : ((to_DWORD custBaudTranslated : Nat) : Int) = custBaudTranslated % 4294967296 := by
      unfold to_DWORD
      exact Int.toNat_of_nonneg (Int.emod_nonneg _ (by norm_num))
    rw [hb, if_pos h251, e]
    refine ⟨rfl, fun h0 h1 => Int.emod_eq_of_lt h0 h1⟩
  · obtain ⟨hv, hne⟩ := switch_baud_on_label baudRateTranslated hmem
    rw [hb, if_neg hne]
    exact hv
  · rw [hb, if_neg hne]
    exact switch_baud_default baudRateTranslated hnot

/-- C20 at concrete inputs: the custom rate `123456`, the standard rate `9600`, and `9601`,
which is not a case label. -/
theorem C20_baud_rate_written_witness :
    ((251 : Int) = 251 ∧
      (((configureComPortData true true 0 8 1 1 251 123456 zero_DCB).dcb.BaudRate : Nat) : Int)
        = 123456 % 4294967296) ∧
    ((9600 : Int) ∈ switch_case_labels ∧
      (((configureComPortData true true 0 8 1 1 9600 0 zero_DCB).dcb.BaudRate : Nat) : Int)
        = 9600) ∧
    ((9601 : Int) ≠ 251 ∧ (9601 : Int) ∉ switch_case_labels ∧
      (configureComPortData true true 0 8 1 1 9601 0 zero_DCB).dcb.BaudRate = 4294967295) ∧
    (configureComPortData true true 0 8 1 1 9600 0 zero_DCB).device.BaudRate
      = (configureComPortData true true 0 8 1 1 9600 0 zero_DCB).dcb.BaudRate :=
  ⟨⟨rfl, ((C20_baud_rate_written true 0 8 1 1 251 123456 zero_DCB).1 rfl).1⟩,
   ⟨by decide, (C20_baud_rate_written true 0 8 1 1 9600 0 zero_DCB).2.1 (by decide)⟩,
   ⟨by decide, by decide,
     (C20_baud_rate_written true 0 8 1 1 9601 0 zero_DCB).2.2.1 (by decide) (by decide)⟩,
   (C20_baud_rate_written true 0 8 1 1 9600 0 zero_DCB).2.2.2 rfl⟩

/-! ## C21: the result of a failed `CreateFile` -/

/-- C21: when `CreateFile` fails, `openComPort` returns `-EBUSY` for
`ERROR_SHARING_VIOLATION`, `-EACCES` for `ERROR_ACCESS_DENIED`, `-ENXIO` for
`ERROR_FILE_NOT_FOUND` and for `ERROR_PATH_NOT_FOUND`, `-EINVAL` for `ERROR_INVALID_NAME` and
`-240` for every other error code; the returned value is negative in every case. -/
theorem C21_openComPort_create_failure (enableRead enableWrite exclusiveOwner : Bool)
    (errorVal : DWORD) (get_ok set_ok : Bool) (set_errorVal : DWORD) (timeouts_ok : Bool) :
    (errorVal = ERROR_SHARING_VIOLATION →
      openComPort true enableRead enableWrite exclusiveOwner none errorVal get_ok set_ok
        set_errorVal timeouts_ok = -EBUSY) ∧
    (errorVal = ERROR_ACCESS_DENIED →
      openComPort true enableRead enableWrite exclusiveOwner none errorVal get_ok set_ok
        set_errorVal timeouts_ok = -EACCES) ∧
    (errorVal = ERROR_FILE_NOT_FOUND ∨ errorVal = ERROR_PATH_NOT_FOUND →
      openComPort true enableRead enableWrite exclusiveOwner none errorVal get_ok set_ok
        set_errorVal timeouts_ok = - ENXIO) ∧
    (errorVal = ERROR_INVALID_NAME →
      openComPort true enableRead enableWrite exclusiveOwner none errorVal get_ok set_ok
        set_errorVal timeouts_ok = -EINVAL) ∧
    (errorVal ≠ ERROR_SHARING_VIOLATION → errorVal ≠ ERROR_ACCESS_DENIED →
      errorVal ≠ ERROR_FILE_NOT_FOUND → errorVal ≠ ERROR_PATH_NOT_FOUND →
      errorVal ≠ ERROR_INVALID_NAME →
      openComPort true enableRead enableWrite exclusiveOwner none errorVal get_ok set_ok
        set_errorVal timeouts_ok = -240) ∧
    openComPort true enableRead enableWrite exclusiveOwner none errorVal get_ok set_ok
        set_errorVal timeouts_ok < 0 := by
  have c1 : errorVal = ERROR_SHARING_VIOLATION →
      openComPort true enableRead enableWrite exclusiveOwner none errorVal get_ok set_ok
        set_errorVal timeouts_ok = -EBUSY := by
    intro h
    simp [openComPort, h]
  have c2 : errorVal = ERROR_ACCESS_DENIED →
      openComPort true enableRead enableWrite exclusiveOwner none errorVal get_ok set_ok
        set_errorVal timeouts_ok = -EACCES := by
    intro h
    subst h
    simp [openComPort, ERROR_ACCESS_DENIED, ERROR_SHARING_VIOLATION]
  have c3 : errorVal = ERROR_FILE_NOT_FOUND ∨ errorVal = ERROR_PATH_NOT_FOUND →
      openComPort true enableRead enableWrite exclusiveOwner none errorVal get_ok set_ok
        set_errorVal timeouts_ok = - ENXIO := by
    intro h
    rcases h with h | h <;> subst h <;>
      simp [openComPort, ERROR_ACCESS_DENIED, ERROR_SHARING_VIOLATION, ERROR_FILE_NOT_FOUND,
        ERROR_PATH_NOT_FOUND]
  have c4 : errorVal = ERROR_INVALID_NAME →
      openComPort true enableRead enableWrite exclusiveOwner none errorVal get_ok set_ok
        set_errorVal timeouts_ok = -EINVAL := by
    intro h
    subst h
    simp [openComPort, ERROR_ACCESS_DENIED, ERROR_SHARING_VIOLATION, ERROR_FILE_NOT_FOUND,
      ERROR_PATH_NOT_FOUND, ERROR_INVALID_NAME]
  have c5 : errorVal ≠ ERROR_SHARING_VIOLATION → errorVal ≠ ERROR_ACCESS_DENIED →
      errorVal ≠ ERROR_FILE_NOT_FOUND → errorVal ≠ ERROR_PATH_NOT_FOUND →
      errorVal ≠ ERROR_INVALID_NAME →
      openComPort true enableRead enableWrite exclusiveOwner none errorVal get_ok set_ok
        set_errorVal timeouts_ok = -240 := by
    intro h1 h2 h3 h4 h5
    simp [openComPort, h1, h2, h3, h4, h5]
  refine ⟨c1, c2, c3, c4, c5, ?_⟩
  by_cases h1 : errorVal = ERROR_SHARING_VIOLATION
  · rw [c1 h1]; decide
  · by_cases h2 : errorVal = ERROR_ACCESS_DENIED
    · rw [c2 h2]; decide
    · by_cases h3 : errorVal = ERROR_FILE_NOT_FOUND
      · rw [c3 (Or.inl h3)]; decide
      · by_cases h4 : errorVal = ERROR_PATH_NOT_FOUND
        · rw [c3 (Or.inr h4)]; decide
        · by_cases h5 : errorVal = ERROR_INVALID_NAME
          · rw [c4 h5]; decide
          · rw [c5 h1 h2 h3 h4 h5]; decide

/-- C21 at concrete inputs: the error codes `32`, `5`, `2`, `123` and `999`. -/
theorem C21_openComPort_create_failure_witness :
    ((32 : DWORD) = ERROR_SHARING_VIOLATION ∧
      openComPort true true true true none 32 true true 0 true = -EBUSY) ∧
    ((5 : DWORD) = ERROR_ACCESS_DENIED ∧
      openComPort true true true true none 5 true true 0 true = -EACCES) ∧
    (((2 : DWORD) = ERROR_FILE_NOT_FOUND ∨ (2 : DWORD) = ERROR_PATH_NOT_FOUND) ∧
      openComPort true true true true none 2 true true 0 true = - ENXIO) ∧
    ((123 : DWORD) = ERROR_INVALID_NAME ∧
      openComPort true true true true none 123 true true 0 true = -EINVAL) ∧
    (((999 : DWORD) ≠ ERROR_SHARING_VIOLATION ∧ (999 : DWORD) ≠ ERROR_ACCESS_DENIED ∧
        (999 : DWORD) ≠ ERROR_FILE_NOT_FOUND ∧ (999 : DWORD) ≠ ERROR_PATH_NOT_FOUND ∧
        (999 : DWORD) ≠ ERROR_INVALID_NAME) ∧
      openComPort true true true true none 999 true true 0 true = -240) :=
  ⟨⟨rfl, (C21_openComPort_create_failure true true true 32 true true 0 true).1 rfl⟩,
   ⟨rfl, (C21_openComPort_create_failure true true true 5 true true 0 true).2.1 rfl⟩,
   ⟨Or.inl rfl,
     (C21_openComPort_create_failure true true true 2 true true 0 true).2.2.1 (Or.inl rfl)⟩,
   ⟨rfl, (C21_openComPort_create_failure true true true 123 true true 0 true).2.2.2.1 rfl⟩,
   ⟨⟨by decide, by decide, by decide, by decide, by decide⟩,
     (C21_openComPort_create_failure true true true 999 true true 0 true).2.2.2.2.1
       (by decide) (by decide) (by decide) (by decide) (by decide)⟩⟩

/-! ## C22: the flags given to `PurgeComm` -/

/-- C22, the code at the failing input: with `rxPortbuf` and `txPortbuf` both false the
variable `PORTIOBUFFER` keeps its initial value `-1`, so `PurgeComm` receives `0xFFFFFFFF`:
the flags contain `PURGE_RXCLEAR` and `PURGE_TXCLEAR` (both buffers are purged) and also
`PURGE_TXABORT` and `PURGE_RXABORT`.  For the other three pairs the flags are the ones of the
given buffers. -/
theorem C22_clear_no_buffer_purges_all :
    (clearPortIOBuffers true false false).2 = 4294967295 ∧
    (clearPortIOBuffers true false false).2 &&& PURGE_RXCLEAR = PURGE_RXCLEAR ∧
    (clearPortIOBuffers true false false).2 &&& PURGE_TXCLEAR = PURGE_TXCLEAR ∧
    (clearPortIOBuffers true false false).2 &&& PURGE_TXABORT = PURGE_TXABORT ∧
    (clearPortIOBuffers true false false).2 &&& PURGE_RXABORT = PURGE_RXABORT ∧
    (clearPortIOBuffers true false false).1 = 0 ∧
    (clearPortIOBuffers true true false).2 = PURGE_RXCLEAR ∧
    (clearPortIOBuffers true false true).2 = PURGE_TXCLEAR ∧
    (clearPortIOBuffers true true true).2 = PURGE_RXCLEAR ||| PURGE_TXCLEAR := by
  decide

/-! ## C23: the slots of created entries are never reused -/

/-- The entry point `setupLooperThread` increments `dtp_index` exactly when it returns `0`. -/
theorem setupLooperThread_dtp_index (os : OSResults) (h : HANDLE) (looper : jobject)
    (d e : Int) (s : State) :
    (setupLooperThread os h looper d e s).2.dtp_index
      = s.dtp_index + (if (setupLooperThread os h looper d e s).1 = 0 then 1 else 0) := by
  by_cases href : os.NewGlobalRef = 0
  · simp [setupLooperThread, href, State.log]
  · by_cases hev : os.CreateEvent = 0
    · simp [setupLooperThread, href, hev, State.log]
    · by_cases hthr : os.beginthreadex = 0
      · simp [setupLooperThread, href, hev, hthr, State.log]
      · simp [setupLooperThread, href, hev, hthr, State.log]

/-- One call changes `dtp_index` only by adding one, and only when it is an attach call that
returns `0`. -/
theorem run_dtp_index (os : OSResults) (c : NativeCall) (s : State) :
    (c.run os s).2.dtp_index
      = s.dtp_index + (if c.is_attach = true ∧ (c.run os s).1 = 0 then 1 else 0) := by
  cases c with
  | setUpDataLooperThread handle looper =>
    show (setUpDataLooperThread os handle looper s).2.dtp_index
      = s.dtp_index + (if true = true ∧ (setUpDataLooperThread os handle looper s).1 = 0
          then 1 else 0)
    by_cases hex : ∃ i, i < MAX_NUM_THREADS ∧ (s.handle_looper_info i).hComm = handle
    · obtain ⟨_, d2, d3, d4⟩ := setUpDataLooperThread_existing os handle looper s hex
      rw [d2]
      cases hs : os.SetCommMask
      · rw [(d4 hs).1]; simp
      · rw [(d3 hs).1]; simp
    · have hno : ∀ i, i < MAX_NUM_THREADS → (s.handle_looper_info i).hComm ≠ handle :=
        fun i hi e => hex ⟨i, hi, e⟩
      rw [setUpDataLooperThread_create os handle looper s hno,
        setupLooperThread_dtp_index os handle looper 1 0 s]
      simp
  | setUpEventLooperThread handle looper =>
    show (setUpEventLooperThread os handle looper s).2.dtp_index
      = s.dtp_index + (if true = true ∧ (setUpEventLooperThread os handle looper s).1 = 0
          then 1 else 0)
    by_cases hex : ∃ i, i < MAX_NUM_THREADS ∧ (s.handle_looper_info i).hComm = handle
    · obtain ⟨_, d2, d3, d4⟩ := setUpEventLooperThread_existing os handle looper s hex
      rw [d2]
      cases hs : os.SetCommMask
      · rw [(d4 hs).1]; simp
      · rw [(d3 hs).1]; simp
    · have hno : ∀ i, i < MAX_NUM_THREADS → (s.handle_looper_info i).hComm ≠ handle :=
        fun i hi e => hex ⟨i, hi, e⟩
      rw [setUpEventLooperThread_create os handle looper s hno,
        setupLooperThread_dtp_index os handle looper 0 1 s]
      simp
  | destroyDataLooperThread handle =>
    show (destroyDataLooperThread os handle s).2.dtp_index = s.dtp_index + _
    rw [(destroy_frame os handle s).1.2.2.1]
    simp [NativeCall.is_attach]
  | destroyEventLooperThread handle =>
    show (destroyEventLooperThread os handle s).2.dtp_index = s.dtp_index + _
    rw [(destroy_frame os handle s).2.2.2.1]
    simp [NativeCall.is_attach]

/-- One call does not change the handle in a slot below `dtp_index`. -/
theorem run_hComm_below (os : OSResults) (c : NativeCall) (s : State)
    (_hidx : c.is_attach = true → s.dtp_index < MAX_NUM_THREADS) (j : Nat)
    (hj : j < s.dtp_index) :
    ((c.run os s).2.handle_looper_info j).hComm = (s.handle_looper_info j).hComm := by
  have create : ∀ (d e : Int) (handle : HANDLE) (looper : jobject),
      ((setupLooperThread os handle looper d e s).2.handle_looper_info j).hComm
        = (s.handle_looper_info j).hComm := by
    intro d e handle looper
    rcases setupLooperThread_hComm os handle looper d e s with hs | hs
    · exact hs j
    · rw [hs j, if_neg (Nat.ne_of_lt hj)]
  cases c with
  | setUpDataLooperThread handle looper =>
    show ((setUpDataLooperThread os handle looper s).2.handle_looper_info j).hComm = _
    by_cases hex : ∃ i, i < MAX_NUM_THREADS ∧ (s.handle_looper_info i).hComm = handle
    · rw [(setUpDataLooperThread_existing os handle looper s hex).1]
    · have hno : ∀ i, i < MAX_NUM_THREADS → (s.handle_looper_info i).hComm ≠ handle :=
        fun i hi e => hex ⟨i, hi, e⟩
      rw [setUpDataLooperThread_create os handle looper s hno]
      exact create 1 0 handle looper
  | setUpEventLooperThread handle looper =>
    show ((setUpEventLooperThread os handle looper s).2.handle_looper_info j).hComm = _
    by_cases hex : ∃ i, i < MAX_NUM_THREADS ∧ (s.handle_looper_info i).hComm = handle
    · rw [(setUpEventLooperThread_existing os handle looper s hex).1]
    · have hno : ∀ i, i < MAX_NUM_THREADS → (s.handle_looper_info i).hComm ≠ handle :=
        fun i hi e => hex ⟨i, hi, e⟩
      rw [setUpEventLooperThread_create os handle looper s hno]
      exact create 0 1 handle looper
  | destroyDataLooperThread handle => exact (destroy_frame os handle s).1.2.2.2 j
  | destroyEventLooperThread handle => exact (destroy_frame os handle s).2.2.2.2 j

/-- Over a sequence of calls whose attach calls are made while `dtp_index < MAX_NUM_THREADS`,
`dtp_index` grows by the number of attach calls that return `0`, and the handles in the slots
below the starting `dtp_index` stay as they are. -/
theorem run_calls_in_bounds (calls : List (OSResults × NativeCall)) (s : State)
    (hb : calls_in_bounds calls s) :
    (run_calls calls s).dtp_index = s.dtp_index + count_successful_attaches calls s ∧
    ∀ j, j < s.dtp_index →
      ((run_calls calls s).handle_looper_info j).hComm = (s.handle_looper_info j).hComm := by
  induction calls generalizing s with
  | nil => exact ⟨rfl, fun _ _ => rfl⟩
  | cons oc rest ih =>
    obtain ⟨os, c⟩ := oc
    obtain ⟨hidx, hrest⟩ := hb
    obtain ⟨ih1, ih2⟩ := ih (c.run os s).2 hrest
    have hstep := run_dtp_index os c s
    refine ⟨?_, ?_⟩
    · show (run_calls rest (c.run os s).2).dtp_index = _
      rw [ih1, hstep]
      simp only [count_successful_attaches]
      omega
    · intro j hj
      show ((run_calls rest (c.run os s).2).handle_looper_info j).hComm = _
      rw [ih2 j (by rw [hstep]; omega)]
      exact run_hComm_below os c s hidx j hj

/-- C23, refuted as stated: a slot can be used again.  On the empty registry the attach for
handle `5` fails to start its thread: slot `0` holds handle `5` and `dtp_index` is still `0`.
The next attach, for handle `6`, every external call succeeding, returns `0` and stores its
entry in the same slot `0`, which now holds handle `6`. -/
theorem C23_slot_reused_after_failed_start_counterexample :
    ((setUpDataLooperThread thread_fails 5 9 empty_registry).2.handle_looper_info 0).hComm = 5 ∧
    (setUpDataLooperThread thread_fails 5 9 empty_registry).2.dtp_index = 0 ∧
    (setUpDataLooperThread all_succeed 6 9
      (setUpDataLooperThread thread_fails 5 9 empty_registry).2).1 = 0 ∧
    ((setUpDataLooperThread all_succeed 6 9
      (setUpDataLooperThread thread_fails 5 9 empty_registry).2).2.handle_looper_info 0).hComm
      = 6 := by
  have hno5 : ∀ i, i < MAX_NUM_THREADS → (empty_registry.handle_looper_info i).hComm ≠ 5 :=
    fun _ _ => by simp [empty_registry, zero_params]
  have hc := setUpDataLooperThread_create thread_fails 5 9 empty_registry hno5
  obtain ⟨_, r2, r3, _⟩ := setupLooperThread_thread_fails thread_fails 5 9 1 0 empty_registry
    (by decide) (by decide) rfl
  rw [← hc] at r2 r3
  have r3z : (setUpDataLooperThread thread_fails 5 9 empty_registry).2.dtp_index = 0 := r3
  have hslot :
      ((setUpDataLooperThread thread_fails 5 9 empty_registry).2.handle_looper_info 0).hComm
        = 5 := by
    rw [r2]; simp [empty_registry]
  have hno6 : ∀ i, i < MAX_NUM_THREADS →
      ((setUpDataLooperThread thread_fails 5 9 empty_registry).2.handle_looper_info i).hComm
        ≠ 6 := by
    intro i _
    rw [r2]
    by_cases hi : i = 0
    · subst hi; simp [empty_registry]
    · simp [Function.update, hi, empty_registry, zero_params]
  have hc6 := setUpDataLooperThread_create all_succeed 6 9
    (setUpDataLooperThread thread_fails 5 9 empty_registry).2 hno6
  obtain ⟨q1, _, q3, _⟩ := setupLooperThread_success all_succeed 6 9 1 0
    (setUpDataLooperThread thread_fails 5 9 empty_registry).2
    (by decide) (by decide) (by decide)
  rw [← hc6] at q1 q3
  refine ⟨hslot, r3z, q1, ?_⟩
  rw [q3, r3z]
  simp

/-- C23, amended: for every sequence of attach and detach calls, run one at a time with any
results of the external calls, every attach being made while `dtp_index < 1024`: `dtp_index`
does not decrease, it grows by exactly the number of attach calls that returned `0` (the
attaches that created an entry), whatever detach calls lie in between; the handle in every
slot below the starting `dtp_index` is unchanged, so the slot of a created entry is never given
to another handle; and no detach call changes `dtp_index` or the `hComm` of any slot.  So once
`1024` attaches have created an entry, `dtp_index` is `1024` and stays there even when all these
listeners are detached. -/
theorem C23_created_slots_never_reused (calls : List (OSResults × NativeCall)) (s : State)
    (hb : calls_in_bounds calls s) :
    s.dtp_index ≤ (run_calls calls s).dtp_index ∧
    (run_calls calls s).dtp_index = s.dtp_index + count_successful_attaches calls s ∧
    (∀ j, j < s.dtp_index →
      ((run_calls calls s).handle_looper_info j).hComm = (s.handle_looper_info j).hComm) ∧
    (∀ (os : OSResults) (h : HANDLE) (t : State),
      (destroyDataLooperThread os h t).2.dtp_index = t.dtp_index ∧
      (∀ j, ((destroyDataLooperThread os h t).2.handle_looper_info j).hComm
        = (t.handle_looper_info j).hComm) ∧
      (destroyEventLooperThread os h t).2.dtp_index = t.dtp_index ∧
      (∀ j, ((destroyEventLooperThread os h t).2.handle_looper_info j).hComm
        = (t.handle_looper_info j).hComm)) := by
  obtain ⟨e, hk⟩ := run_calls_in_bounds calls s hb
  refine ⟨by omega, e, hk, ?_⟩
  intro os h t
  obtain ⟨⟨_, _, a3, a4⟩, ⟨_, _, b3, b4⟩⟩ := destroy_frame os h t
  exact ⟨a3, a4, b3, b4⟩

/-- C23 (amended) at a concrete input: from `data_attached` (slot `0` holds handle `5`,
`dtp_index = 1`) a data listener is attached to handle `6` and the data listener of handle `5`
is detached. -/
theorem C23_created_slots_never_reused_witness :
    calls_in_bounds
      [(all_succeed, NativeCall.setUpDataLooperThread 6 9),
       (all_succeed, NativeCall.destroyDataLooperThread 5)] data_attached ∧
    data_attached.dtp_index ≤ (run_calls
      [(all_succeed, NativeCall.setUpDataLooperThread 6 9),
       (all_succeed, NativeCall.destroyDataLooperThread 5)] data_attached).dtp_index ∧
    (∀ j, j < data_attached.dtp_index →
      ((run_calls
        [(all_succeed, NativeCall.setUpDataLooperThread 6 9),
         (all_succeed, NativeCall.destroyDataLooperThread 5)]
        data_attached).handle_looper_info j).hComm
      = (data_attached.handle_looper_info j).hComm) :=
  have hb : calls_in_bounds
      [(all_succeed, NativeCall.setUpDataLooperThread 6 9),
       (all_succeed, NativeCall.destroyDataLooperThread 5)] data_attached :=
    ⟨fun _ => by simp [data_attached, MAX_NUM_THREADS],
     fun hf => absurd hf (by decide), trivial⟩
  have c := C23_created_slots_never_reused _ data_attached hb
  ⟨hb, c.1, c.2.2.1⟩

/-! ## C24: waking the worker when a kind is attached to an existing entry -/

/-- The external calls of `setUpDataLooperThread` on its existing-thread path. -/
theorem setUpDataLooperThread_existing_calls (os : OSResults) (h : HANDLE) (looper : jobject)
    (s : State) (hex : ∃ i, i < MAX_NUM_THREADS ∧ (s.handle_looper_info i).hComm = h) :
    (setUpDataLooperThread os h looper s).2.calls =
      s.calls ++ [OSCall.GetCommMask h,
        OSCall.SetCommMask h
          ((if os.GetCommMask then s.comm_mask h else os.uninit_event_mask) ||| EV_RXCHAR)]
        ++ (if os.SetCommMask then [] else [OSCall.ClearCommError h]) := by
  have hb := (lookup_exists_iff s.handle_looper_info h).2 hex
  cases hs : os.SetCommMask <;> simp [setUpDataLooperThread, hb, hs, State.log]

/-- The external calls of `setUpEventLooperThread` on its existing-thread path. -/
theorem setUpEventLooperThread_existing_calls (os : OSResults) (h : HANDLE) (looper : jobject)
    (s : State) (hex : ∃ i, i < MAX_NUM_THREADS ∧ (s.handle_looper_info i).hComm = h) :
    (setUpEventLooperThread os h looper s).2.calls =
      s.calls ++ [OSCall.GetCommMask h,
        OSCall.SetCommMask h
          ((if os.GetCommMask then s.comm_mask h else os.uninit_event_mask)
            ||| EV_BREAK ||| EV_CTS ||| EV_DSR ||| EV_ERR ||| EV_RING ||| EV_RLSD
            ||| EV_RXFLAG)]
        ++ (if os.SetCommMask then [] else [OSCall.ClearCommError h]) := by
  have hb := (lookup_exists_iff s.handle_looper_info h).2 hex
  cases hs : os.SetCommMask <;> simp [setUpEventLooperThread, hb, hs, State.log]

/-- C24, refuted as stated: handle `5` has an entry in `data_attached` and in
`event_attached`, at slot `0`, whose cancel event `wait_event_handles[0]` is `12`.  Attaching
the other kind, with every external call succeeding, does not signal it: the call log holds
no `SetEvent 12`. -/
theorem C24_attach_existing_signals_counterexample :
    (data_attached.handle_looper_info 0).hComm = 5 ∧
    (data_attached.handle_looper_info 0).wait_event_handles_0 = 12 ∧
    ¬ (OSCall.SetEvent 12 ∈ (setUpEventLooperThread all_succeed 5 9 data_attached).2.calls) ∧
    (event_attached.handle_looper_info 0).hComm = 5 ∧
    (event_attached.handle_looper_info 0).wait_event_handles_0 = 12 ∧
    ¬ (OSCall.SetEvent 12 ∈ (setUpDataLooperThread all_succeed 5 9 event_attached).2.calls) := by
  have hexd : ∃ i, i < MAX_NUM_THREADS ∧ (data_attached.handle_looper_info i).hComm = 5 :=
    ⟨0, by simp [MAX_NUM_THREADS], by simp [data_attached]⟩
  have hexe : ∃ i, i < MAX_NUM_THREADS ∧ (event_attached.handle_looper_info i).hComm = 5 :=
    ⟨0, by simp [MAX_NUM_THREADS], by simp [event_attached]⟩
  rw [setUpEventLooperThread_existing_calls all_succeed 5 9 data_attached hexd,
    setUpDataLooperThread_existing_calls all_succeed 5 9 event_attached hexe]
  refine ⟨by simp [data_attached], by simp [data_attached], ?_, by simp [event_attached],
    by simp [event_attached], ?_⟩
  · simp [all_succeed, data_attached]
  · simp [all_succeed, event_attached]

/-- C24, amended: when a slot of the table holds `h`, `setUpDataLooperThread` and
`setUpEventLooperThread` update the watched set by calling `SetCommMask` with the mask read
or-ed with the bits of the kind, and make no `SetEvent` call: every `SetEvent` in the call log
after the call was in it before.  They leave `thread_exit` of every slot as it was, so the
worker is not asked to exit. -/
theorem C24_attach_existing_makes_no_SetEvent (os : OSResults) (h : HANDLE) (looper : jobject)
    (s : State) (hex : ∃ i, i < MAX_NUM_THREADS ∧ (s.handle_looper_info i).hComm = h) :
    ((∀ ev, OSCall.SetEvent ev ∈ (setUpDataLooperThread os h looper s).2.calls →
        OSCall.SetEvent ev ∈ s.calls) ∧
      OSCall.SetCommMask h
          ((if os.GetCommMask then s.comm_mask h else os.uninit_event_mask) ||| EV_RXCHAR)
        ∈ (setUpDataLooperThread os h looper s).2.calls ∧
      (∀ j, ((setUpDataLooperThread os h looper s).2.handle_looper_info j).thread_exit
        = (s.handle_looper_info j).thread_exit)) ∧
    ((∀ ev, OSCall.SetEvent ev ∈ (setUpEventLooperThread os h looper s).2.calls →
        OSCall.SetEvent ev ∈ s.calls) ∧
      OSCall.SetCommMask h
          ((if os.GetCommMask then s.comm_mask h else os.uninit_event_mask)
            ||| EV_BREAK ||| EV_CTS ||| EV_DSR ||| EV_ERR ||| EV_RING ||| EV_RLSD
            ||| EV_RXFLAG)
        ∈ (setUpEventLooperThread os h looper s).2.calls ∧
      (∀ j, ((setUpEventLooperThread os h looper s).2.handle_looper_info j).thread_exit
        = (s.handle_looper_info j).thread_exit)) := by
  rw [setUpDataLooperThread_existing_calls os h looper s hex,
    setUpEventLooperThread_existing_calls os h looper s hex,
    (setUpDataLooperThread_existing os h looper s hex).1,
    (setUpEventLooperThread_existing os h looper s hex).1]
  refine ⟨⟨?_, ?_, fun _ => rfl⟩, ⟨?_, ?_, fun _ => rfl⟩⟩
  · intro ev hev
    cases hs : os.SetCommMask <;> simp [hs] at hev <;> exact hev
  · simp
  · intro ev hev
    cases hs : os.SetCommMask <;> simp [hs] at hev <;> exact hev
  · simp

/-- C24 (amended) at a concrete input: the event listener attached to handle `5` of
`data_attached`. -/
theorem C24_attach_existing_makes_no_SetEvent_witness :
    (∃ i, i < MAX_NUM_THREADS ∧ (data_attached.handle_looper_info i).hComm = 5) ∧
    (∀ ev, OSCall.SetEvent ev ∈ (setUpEventLooperThread all_succeed 5 9 data_attached).2.calls →
        OSCall.SetEvent ev ∈ data_attached.calls) ∧
    (∀ j, ((setUpEventLooperThread all_succeed 5 9 data_attached).2.handle_looper_info
        j).thread_exit = (data_attached.handle_looper_info j).thread_exit) :=
  have hex : ∃ i, i < MAX_NUM_THREADS ∧ (data_attached.handle_looper_info i).hComm = 5 :=
    ⟨0, by simp [MAX_NUM_THREADS], by simp [data_attached]⟩
  have c := C24_attach_existing_makes_no_SetEvent all_succeed 5 9 data_attached hex
  ⟨hex, c.2.1, c.2.2.2⟩

/-! ## C25: the algebra of the attach masks -/

/-- A bit of a mask is still set after more bits are or-ed into it. -/
theorem testBit_lor_of_testBit (m bits k : Nat) (hk : m.testBit k = true) :
    (m ||| bits).testBit k = true := by
  rw [Nat.testBit_or, hk]
  rfl

/-- Or-ing the same bits in twice is or-ing them in once. -/
theorem lor_lor_self (m bits : Nat) : m ||| bits ||| bits = m ||| bits := by
  rw [Nat.lor_assoc, Nat.or_self]

/-- Or-ing in the data bit and the line and error bits gives the same mask in either order. -/
theorem lor_data_event_comm (m : Nat) :
    m ||| EV_RXCHAR ||| EV_BREAK ||| EV_CTS ||| EV_DSR ||| EV_ERR ||| EV_RING ||| EV_RLSD
        ||| EV_RXFLAG
      = m ||| EV_BREAK ||| EV_CTS ||| EV_DSR ||| EV_ERR ||| EV_RING ||| EV_RLSD ||| EV_RXFLAG
          ||| EV_RXCHAR := by
  rw [lor_line_event_bits (m ||| EV_RXCHAR), lor_line_event_bits m]
  generalize EV_BREAK ||| EV_CTS ||| EV_DSR ||| EV_ERR ||| EV_RING ||| EV_RLSD ||| EV_RXFLAG = u
  rw [Nat.lor_assoc m EV_RXCHAR u, Nat.lor_assoc m u EV_RXCHAR, Nat.lor_comm EV_RXCHAR u]

/-- C25: on the existing-thread path, with `GetCommMask` returning the mask `m` of the device
and `SetCommMask` succeeding, `setUpDataLooperThread` calls `SetCommMask` with `m | EV_RXCHAR`
and `setUpEventLooperThread` with `m | (EV_BREAK|EV_CTS|EV_DSR|EV_ERR|EV_RING|EV_RLSD|EV_RXFLAG)`,
which becomes the mask of the device.  Hence no bit of `m` is removed, a second attach of the
same kind leaves the masks as they are after the first, and attaching data then event gives
the same masks as attaching event then data. -/
theorem C25_attach_mask_algebra (os1 os2 : OSResults) (h : HANDLE) (looper1 looper2 : jobject)
    (s : State) (hex : ∃ i, i < MAX_NUM_THREADS ∧ (s.handle_looper_info i).hComm = h)
    (hg1 : os1.GetCommMask = true) (hs1 : os1.SetCommMask = true)
    (hg2 : os2.GetCommMask = true) (hs2 : os2.SetCommMask = true) :
    (OSCall.SetCommMask h (s.comm_mask h ||| EV_RXCHAR)
        ∈ (setUpDataLooperThread os1 h looper1 s).2.calls ∧
      (setUpDataLooperThread os1 h looper1 s).2.comm_mask h = s.comm_mask h ||| EV_RXCHAR) ∧
    (OSCall.SetCommMask h (s.comm_mask h |||
          (EV_BREAK ||| EV_CTS ||| EV_DSR ||| EV_ERR ||| EV_RING ||| EV_RLSD ||| EV_RXFLAG))
        ∈ (setUpEventLooperThread os1 h looper1 s).2.calls ∧
      (setUpEventLooperThread os1 h looper1 s).2.comm_mask h = s.comm_mask h |||
          (EV_BREAK ||| EV_CTS ||| EV_DSR ||| EV_ERR ||| EV_RING ||| EV_RLSD ||| EV_RXFLAG)) ∧
    (∀ k, (s.comm_mask h).testBit k = true →
      ((setUpDataLooperThread os1 h looper1 s).2.comm_mask h).testBit k = true ∧
      ((setUpEventLooperThread os1 h looper1 s).2.comm_mask h).testBit k = true) ∧
    (setUpDataLooperThread os2 h looper2 (setUpDataLooperThread os1 h looper1 s).2).2.comm_mask
      = (setUpDataLooperThread os1 h looper1 s).2.comm_mask ∧
    (setUpEventLooperThread os2 h looper2 (setUpEventLooperThread os1 h looper1 s).2).2.comm_mask
      = (setUpEventLooperThread os1 h looper1 s).2.comm_mask ∧
    (setUpEventLooperThread os2 h looper2 (setUpDataLooperThread os1 h looper1 s).2).2.comm_mask
      = (setUpDataLooperThread os2 h looper2
          (setUpEventLooperThread os1 h looper1 s).2).2.comm_mask := by
  -- the first calls
  obtain ⟨dt, _, d3, _⟩ := setUpDataLooperThread_existing os1 h looper1 s hex
  obtain ⟨et, _, e3, _⟩ := setUpEventLooperThread_existing os1 h looper1 s hex
  have dm := (d3 hs1).2
  have em := (e3 hs1).2
  rw [hg1] at dm em
  simp only [if_true] at dm em
  have dcalls := setUpDataLooperThread_existing_calls os1 h looper1 s hex
  have ecalls := setUpEventLooperThread_existing_calls os1 h looper1 s hex
  rw [hg1] at dcalls ecalls
  simp only [if_true] at dcalls ecalls
  -- the handle still has its entry after the first call
  have hexd : ∃ i, i < MAX_NUM_THREADS ∧
      ((setUpDataLooperThread os1 h looper1 s).2.handle_looper_info i).hComm = h := by
    rw [dt]; exact hex
  have hexe : ∃ i, i < MAX_NUM_THREADS ∧
      ((setUpEventLooperThread os1 h looper1 s).2.handle_looper_info i).hComm = h := by
    rw [et]; exact hex
  -- the second calls
  have dd := ((setUpDataLooperThread_existing os2 h looper2 _ hexd).2.2.1 hs2).2
  have ee := ((setUpEventLooperThread_existing os2 h looper2 _ hexe).2.2.1 hs2).2
  have de := ((setUpEventLooperThread_existing os2 h looper2 _ hexd).2.2.1 hs2).2
  have ed := ((setUpDataLooperThread_existing os2 h looper2 _ hexe).2.2.1 hs2).2
  rw [hg2] at dd ee de ed
  simp only [if_true] at dd ee de ed
  have dmh : (setUpDataLooperThread os1 h looper1 s).2.comm_mask h
      = s.comm_mask h ||| EV_RXCHAR := by
    rw [dm]; exact Function.update_same h _ _
  have emh : (setUpEventLooperThread os1 h looper1 s).2.comm_mask h
      = s.comm_mask h ||| EV_BREAK ||| EV_CTS ||| EV_DSR ||| EV_ERR ||| EV_RING ||| EV_RLSD
          ||| EV_RXFLAG := by
    rw [em]; exact Function.update_same h _ _
  refine ⟨⟨?_, dmh⟩, ⟨?_, ?_⟩, ?_, ?_, ?_, ?_⟩
  · rw [dcalls]; simp
  · rw [ecalls, lor_line_event_bits]; simp
  · rw [emh, lor_line_event_bits]
  · intro k hk
    rw [dmh, emh, lor_line_event_bits]
    exact ⟨testBit_lor_of_testBit _ _ k hk, testBit_lor_of_testBit _ _ k hk⟩
  · rw [dd, dmh, lor_lor_self, dm, Function.update_idem]
  · rw [ee, emh, lor_line_event_bits (s.comm_mask h), lor_line_event_bits, lor_lor_self,
      em, lor_line_event_bits (s.comm_mask h), Function.update_idem]
  · rw [de, ed, dmh, emh, dm, em, Function.update_idem, Function.update_idem,
      lor_data_event_comm]

/-- C25 at a concrete input: handle `5` of `data_attached`, every external call succeeding. -/
theorem C25_attach_mask_algebra_witness :
    (∃ i, i < MAX_NUM_THREADS ∧ (data_attached.handle_looper_info i).hComm = 5) ∧
    all_succeed.GetCommMask = true ∧ all_succeed.SetCommMask = true ∧
    (setUpDataLooperThread all_succeed 5 9 data_attached).2.comm_mask 5
      = data_attached.comm_mask 5 ||| EV_RXCHAR ∧
    (setUpDataLooperThread all_succeed 5 9
        (setUpDataLooperThread all_succeed 5 9 data_attached).2).2.comm_mask
      = (setUpDataLooperThread all_succeed 5 9 data_attached).2.comm_mask ∧
    (setUpEventLooperThread all_succeed 5 9
        (setUpDataLooperThread all_succeed 5 9 data_attached).2).2.comm_mask
      = (setUpDataLooperThread all_succeed 5 9
          (setUpEventLooperThread all_succeed 5 9 data_attached).2).2.comm_mask :=
  have hex : ∃ i, i < MAX_NUM_THREADS ∧ (data_attached.handle_looper_info i).hComm = 5 :=
    ⟨0, by simp [MAX_NUM_THREADS], by simp [data_attached]⟩
  have c := C25_attach_mask_algebra all_succeed all_succeed 5 9 9 data_attached hex
    rfl rfl rfl rfl
  ⟨hex, rfl, rfl, c.1.2, c.2.2.2.1, c.2.2.2.2.2⟩

/-! ## C26: the critical section on the return paths of `setupLooperThread` -/

/-- The critical section after `setupLooperThread`: the count the call added on entry is
taken back only when the three creating calls succeed. -/
theorem setupLooperThread_csmutex (os : OSResults) (h : HANDLE) (looper : jobject)
    (d e : Int) (s : State) :
    (setupLooperThread os h looper d e s).2.csmutex_count
      = if os.NewGlobalRef ≠ 0 ∧ os.CreateEvent ≠ 0 ∧ os.beginthreadex ≠ 0 then s.csmutex_count
        else s.csmutex_count + 1 := by
  by_cases href : os.NewGlobalRef = 0
  · simp [setupLooperThread, href, State.log]
  · by_cases hev : os.CreateEvent = 0
    · simp [setupLooperThread, href, hev, State.log]
    · by_cases hthr : os.beginthreadex = 0
      · simp [setupLooperThread, href, hev, hthr, State.log]
      · simp [setupLooperThread, href, hev, hthr, State.log]

/-- C26, the code at the failing inputs: called on the empty registry, where the critical
section is not held, `setupLooperThread` returns `-240` with the critical section still held
(count `1`, no `LeaveCriticalSection` in the call log) when `NewGlobalRef` returns `NULL`,
when `CreateEvent` returns `NULL` and when `_beginthreadex` returns `0`.  Only the return at
the end of the function is preceded by `LeaveCriticalSection`. -/
theorem C26_early_returns_keep_the_lock :
    empty_registry.csmutex_count = 0 ∧
    (setupLooperThread ref_fails 5 9 1 0 empty_registry).1 = -240 ∧
    (setupLooperThread ref_fails 5 9 1 0 empty_registry).2.csmutex_count = 1 ∧
    (setupLooperThread ref_fails 5 9 1 0 empty_registry).2.calls
      = [OSCall.EnterCriticalSection, OSCall.NewGlobalRef 9] ∧
    (setupLooperThread event_fails 5 9 1 0 empty_registry).1 = -240 ∧
    (setupLooperThread event_fails 5 9 1 0 empty_registry).2.csmutex_count = 1 ∧
    (setupLooperThread event_fails 5 9 1 0 empty_registry).2.calls
      = [OSCall.EnterCriticalSection, OSCall.NewGlobalRef 9, OSCall.CreateEvent] ∧
    (setupLooperThread thread_fails 5 9 1 0 empty_registry).1 = -240 ∧
    (setupLooperThread thread_fails 5 9 1 0 empty_registry).2.csmutex_count = 1 ∧
    (setupLooperThread thread_fails 5 9 1 0 empty_registry).2.calls
      = [OSCall.EnterCriticalSection, OSCall.NewGlobalRef 9, OSCall.CreateEvent,
          OSCall.beginthreadex 0] ∧
    (setupLooperThread all_succeed 5 9 1 0 empty_registry).1 = 0 ∧
    (setupLooperThread all_succeed 5 9 1 0 empty_registry).2.csmutex_count = 0 := by
  decide

end WindowsSerial
